import Mathlib

/-!
Verification of the translation engine of `drizzle-prisma-generator`: a shallow
embedding, in Lean, of the generator's data model (a Prisma-DMMF-style model
list), its implicit many-to-many synthesizer (`extract-many-to-many-models`),
its string escaper (`util/escape`), and its three dialect generators
(`generateMySqlSchema`, `generatePgSchema`, `generateSQLiteSchema`), together
with theorems settling the specification's claims about them.

Conventions of the embedding:
* JavaScript strings are `String`; machine integers do not occur.
* A JavaScript value that only ever reaches the output through its `String(v)`
  or `JSON.stringify(v)` rendering is abstracted as a `JsValue` carrying both
  renderings.
* `undefined`/`null` become `Option`; JS truthiness on strings is "defined and
  non-empty", on arrays via `?.length` it is "defined and non-empty".
* Thrown `GeneratorError`/`Error` become `Except String`; the error carries the
  message text.
* The module-scope import `Set`s of the source are only written during a run
  and read once at the end (sorted), so each generator is embedded as a pure
  core that returns the names it adds, plus a wrapper that folds those names
  into the carried, process-lifetime `GenState` — observationally the same as
  the source's mutation order. A run that throws discards its partial adds;
  no claim observes state after a failed run.
-/

set_option maxRecDepth 8000

namespace DPG

/-- A JavaScript value abstracted by its two renderings and its truthiness:
`str` is `String(v)`, `json` is `JSON.stringify(v)`, and `truthy` is `!!v`
(false for the literals `0`, `""`, `false`). -/
structure JsValue where
  str : String
  json : String
  truthy : Bool := true
deriving Repr, DecidableEq

/-- A DMMF field default: a primitive literal, a list of literals, or a named
function call with arguments (the `{ name, args }` object of the DMMF). -/
inductive DefaultValue where
  | lit (v : JsValue)
  | list (vs : List JsValue)
  | fn (name : String) (args : List JsValue)
deriving Repr, DecidableEq

/-- `field.kind` of the DMMF. -/
inductive FieldKind where
  | scalar
  | enum
  | object
deriving Repr, DecidableEq

/-- A DMMF field record (`DMMF.Field`). -/
structure Field where
  name : String
  type : String
  dbName : Option String := none
  kind : FieldKind := .scalar
  isRequired : Bool := false
  isList : Bool := false
  isUnique : Bool := false
  isId : Bool := false
  isReadOnly : Bool := false
  hasDefaultValue : Bool := false
  default : Option DefaultValue := none
  relationName : Option String := none
  relationFromFields : Option (List String) := none
  relationToFields : Option (List String) := none
  relationOnDelete : Option String := none
deriving Repr, DecidableEq

/-- A model's primary key block (`DMMF.PrimaryKey`). -/
structure PrimaryKey where
  name : Option String := none
  fields : List String
deriving Repr, DecidableEq

/-- A model's unique index (`DMMF.uniqueIndexes` entry). -/
structure UniqueIndex where
  name : Option String := none
  fields : List String
deriving Repr, DecidableEq

/-- A DMMF model (`DMMF.Model`). -/
structure Model where
  name : String
  dbName : Option String := none
  fields : List Field
  primaryKey : Option PrimaryKey := none
  uniqueFields : List (List String) := []
  uniqueIndexes : List UniqueIndex := []
deriving Repr, DecidableEq

/-- One value of a DMMF enum. -/
structure EnumValue where
  name : String
  dbName : Option String := none
deriving Repr, DecidableEq

/-- A DMMF datamodel enum (`DMMF.DatamodelEnum`). -/
structure DatamodelEnum where
  name : String
  dbName : Option String := none
  values : List EnumValue
deriving Repr, DecidableEq

/-- `options.dmmf.datamodel`: the canonical input of every dialect generator. -/
structure Datamodel where
  models : List Model
  enums : List DatamodelEnum
deriving Repr, DecidableEq

/-- Propositional equality on `Except` results is decidable (used to state
concrete runs). -/
instance [DecidableEq ε] [DecidableEq α] : DecidableEq (Except ε α) := fun a b =>
  match a, b with
  | .error e, .error f => decidable_of_iff (e = f) (by simp)
  | .error _, .ok _ => .isFalse (by simp)
  | .ok _, .error _ => .isFalse (by simp)
  | .ok a, .ok b => decidable_of_iff (a = b) (by simp)

/-! ## String helpers -/

/-- The backslash character. -/
def bsl : Char := Char.ofNat 92

/-- The backtick quote character (raw-SQL escape container). -/
def btk : Char := Char.ofNat 96

/-- The single-quote character (the escaper's default container). -/
def sqt : Char := Char.ofNat 39

/-- `util/escape`'s `s`: double every backslash, then put a backslash before
every occurrence of the container character. -/
def s (src : String) (container : Char) : String :=
  ⟨(src.data.flatMap fun c => if c = bsl then [bsl, bsl] else [c]).flatMap
    fun c => if c = container then [bsl, c] else [c]⟩

/-- JS truthiness of a possibly-undefined string (`!!x` / `x ? _ : _`):
defined and non-empty. -/
def truthyStr : Option String → Bool
  | some t => t ≠ ""
  | none => false

/-- JS truthiness of `x?.length` for a possibly-undefined array: defined and
non-empty. -/
def truthyLen : Option (List α) → Bool
  | some l => !l.isEmpty
  | none => false

/-- `String.prototype.slice(0, n)` for the in-range uses of the source (the
source only slices a 4-character suffix off a string that ends in `_key`). -/
def strTake (t : String) (n : Nat) : String := ⟨t.data.take n⟩

/-- Whether `needle` occurs as a contiguous substring of the character list. -/
def strContainsAux (needle : List Char) : List Char → Bool
  | [] => needle.isEmpty
  | c :: cs => needle.isPrefixOf (c :: cs) || strContainsAux needle cs

/-- Whether `needle` occurs as a contiguous substring of `hay`. -/
def strContains (hay needle : String) : Bool := strContainsAux needle.data hay.data

/-- `String.prototype.toLowerCase` for the ASCII identifier-like names the
generators lowercase. -/
def jsToLower (t : String) : String := ⟨t.data.map Char.toLower⟩

/-- Strict lexicographic codepoint order on character lists. -/
def listLtChars : List Char → List Char → Bool
  | [], [] => false
  | [], _ :: _ => true
  | _ :: _, [] => false
  | a :: as, b :: bs =>
    if a.val < b.val then true else if b.val < a.val then false else listLtChars as bs

/-- `str.startsWith(prefixStr)`. -/
def jsStartsWith (t p : String) : Bool := p.data.isPrefixOf t.data

/-- `str.endsWith(suffixStr)`. -/
def jsEndsWith (t p : String) : Bool := p.data.isSuffixOf t.data

/-- A model of `a.localeCompare(b) < 0` for the identifier-like names the
generators sort: ICU (en) collation compares base letters first and breaks
ties by case with lowercase first, modelled as comparison of the lowercased
strings with a codepoint tie-break. -/
def localeLt (a b : String) : Bool :=
  if jsToLower a = jsToLower b then listLtChars b.data a.data
  else listLtChars (jsToLower a).data (jsToLower b).data

/-- Insertion into a sorted list under `localeLt`. -/
def insertSorted (x : String) : List String → List String
  | [] => [x]
  | y :: ys => if localeLt y x then y :: insertSorted x ys else x :: y :: ys

/-- `Array.from(set.values()).sort((a, b) => a.localeCompare(b))`. -/
def sortStrings (l : List String) : List String := l.foldr insertSorted []

/-- `Set.prototype.add`: a JS `Set` keeps first-insertion order and ignores
re-insertion. -/
def insertSet (acc : List String) (x : String) : List String :=
  if x ∈ acc then acc else acc ++ [x]

/-- `Object.fromEntries` over already-filtered entries: a later entry with a
key already present overwrites the value in place (JS object key order is
first-insertion order). -/
def objInsert (obj : List (String × String)) (k v : String) : List (String × String) :=
  if obj.any (fun p => p.1 = k) then obj.map (fun p => if p.1 = k then (k, v) else p)
  else obj ++ [(k, v)]

/-- `Object.fromEntries`. -/
def fromEntries (l : List (String × String)) : List (String × String) :=
  l.foldl (fun o p => objInsert o p.1 p.2) []

/-- `obj[k] = obj[k] + suffix` on a JS object: appends to the value in place
when the key exists, else creates the key with `"undefined" + suffix` (the
read of a missing property renders as `undefined`). -/
def objAppendAt (obj : List (String × String)) (k suffix : String) : List (String × String) :=
  if obj.any (fun p => p.1 = k) then
    obj.map (fun p => if p.1 = k then (p.1, p.2 ++ suffix) else p)
  else obj ++ [(k, "undefined" ++ suffix)]

/-! ## `util/extract-many-to-many-models`

The synthesizer mutates relation fields of the (cloned) model list in place;
the embedding threads the model list explicitly and addresses a field by its
`(model index, field index)` position. -/

/-- A field's position in the model list. -/
abbrev FieldRef := Nat × Nat

/-- Read the field at a position. -/
def getF (models : List Model) (r : FieldRef) : Option Field :=
  models[r.1]?.bind fun m => m.fields[r.2]?

/-- Overwrite the field at a position (the source's in-place mutation). -/
def setF (models : List Model) (r : FieldRef) (f : Field) : List Model :=
  match models[r.1]? with
  | none => models
  | some m => models.set r.1 { m with fields := m.fields.set r.2 f }

/-- Every field of every model with its position, in `flatMap` order. -/
def fieldRefsOf (models : List Model) : List (FieldRef × Field) :=
  (models.enum).flatMap fun im => (im.2.fields.enum).map fun jf => ((im.1, jf.1), jf.2)

/-- `filterManyToManyRelationFields`: the positions of the relation-named
fields whose relation name is carried by no non-list field. -/
def filterManyToManyRelationFields (models : List Model) : List FieldRef :=
  let relationFields := (fieldRefsOf models).filter fun p => truthyStr p.2.relationName
  let notManyToMany :=
    (relationFields.filter fun p => !p.2.isList).map fun p => p.2.relationName.getD ""
  (relationFields.filter fun p => !notManyToMany.contains (p.2.relationName.getD "")).map
    fun p => p.1

/-- `getJoinIdType`: the type of the id field of the named model. -/
def getJoinIdType (typeName : String) (models : List Model) : Except String String :=
  match models.find? fun m => m.name = typeName with
  | none => .error "Could not find referenced model of many-to-many relation"
  | some m =>
    match m.fields.find? fun f => f.isId with
    | none => .error "No ID field on referenced model of many-to-many relation"
    | some idf => .ok idf.type

/-- `getJoinIdName`: the name of the id field of the named model. -/
def getJoinIdName (typeName : String) (models : List Model) : Except String String :=
  match models.find? fun m => m.name = typeName with
  | none => .error "Could not find referenced model of many-to-many relation"
  | some m =>
    match m.fields.find? fun f => f.isId with
    | none => .error "No ID field on referenced model of many-to-many relation"
    | some idf => .ok idf.name

/-- `generateJoinFields`: sorts the pair by referenced-model name
(`localeCompare`), rewrites both original fields in place (note the source
assigns `A.relationFromFields`/`A.relationToFields` twice and never clears
`B`'s), and returns the four fields of the join model. Fails when a referenced
model or its id field cannot be found. -/
def generateJoinFields (models : List Model) (rFirst : FieldRef) (manyFirst : Field)
    (rSecond : FieldRef) (manySecond : Field) : Except String (List Model × List Field) := do
  let swap := localeLt manySecond.type manyFirst.type
  let (rA, a0, rB, b0) :=
    if swap then (rSecond, manySecond, rFirst, manyFirst) else (rFirst, manyFirst, rSecond, manySecond)
  let aTableName := b0.type
  let bTableName := a0.type
  let manyTableName := a0.type ++ "To" ++ b0.type
  let a1 : Field :=
    { a0 with
      isList := true, type := bTableName ++ "To" ++ aTableName,
      relationName := some (aTableName ++ "To" ++ manyTableName),
      relationFromFields := some [], relationToFields := some [] }
  let b1 : Field :=
    { b0 with
      isList := true, type := bTableName ++ "To" ++ aTableName,
      relationName := some (bTableName ++ "To" ++ manyTableName) }
  let models2 := setF (setF models rA a1) rB b1
  let aIdType ← getJoinIdType aTableName models2
  let aIdName ← getJoinIdName aTableName models2
  let bIdType ← getJoinIdType bTableName models2
  let bIdName ← getJoinIdName bTableName models2
  .ok (models2,
    [ { name := aTableName ++ "Id", dbName := some "A", type := aIdType, kind := .scalar,
        isRequired := true, isReadOnly := true },
      { name := aTableName, type := aTableName, kind := .object,
        isRequired := true, isReadOnly := true,
        relationName := some (aTableName ++ "To" ++ manyTableName),
        relationFromFields := some [aTableName ++ "Id"],
        relationToFields := some [aIdName] },
      { name := bTableName ++ "Id", dbName := some "B", type := bIdType, kind := .scalar,
        isRequired := true, isReadOnly := true },
      { name := bTableName, type := bTableName, kind := .object,
        isRequired := true, isReadOnly := true,
        relationName := some (bTableName ++ "To" ++ manyTableName),
        relationFromFields := some [bTableName ++ "Id"],
        relationToFields := some [bIdName] } ])

/-- `generateModels` with explicit recursion fuel (each step consumes at
least one field, and the recursed-on list is a sublist of the tail, so
`refs.length` fuel always suffices and the fuel-exhausted branch is
unreachable): pops the first remaining many-to-many field, looks for a second
field of the same relation name among the rest, stops (returning the
accumulator) when none is found, else synthesizes the join model and recurses
on the rest filtered by the first field's — by then rewritten — relation
name. Returns the (mutated) model list and the synthesized join models. -/
def generateModelsGo : Nat → List FieldRef → List Model → List Model →
    Except String (List Model × List Model)
  | 0, _, models, acc => .ok (models, acc)
  | _ + 1, [], models, acc => .ok (models, acc)
  | fuel + 1, rFirst :: rest, models, acc =>
    match getF models rFirst with
    | none => .ok (models, acc)  -- out-of-range position: unreachable from `fieldRefsOf`
    | some manyFirst =>
      match rest.find? fun r => ((getF models r).bind fun f => f.relationName) = manyFirst.relationName with
      | none => .ok (models, acc)
      | some rSecond =>
        match getF models rSecond with
        | none => .ok (models, acc)  -- unreachable likewise
        | some manySecond =>
          match generateJoinFields models rFirst manyFirst rSecond manySecond with
          | .error e => .error e
          | .ok (models2, joinFields) =>
            let joined : Model :=
              { dbName := some ("_" ++ manyFirst.relationName.getD "undefined"),
                name := manySecond.type ++ "To" ++ manyFirst.type,
                primaryKey := none, uniqueFields := [], uniqueIndexes := [],
                fields := joinFields }
            let newRelName := (getF models2 rFirst).bind fun f => f.relationName
            generateModelsGo fuel
              (rest.filter fun r => ((getF models2 r).bind fun f => f.relationName) ≠ newRelName)
              models2 (acc ++ [joined])

/-- `generateModels` (see `generateModelsGo`). -/
def generateModels (refs : List FieldRef) (models : List Model) (acc : List Model) :
    Except String (List Model × List Model) :=
  generateModelsGo refs.length refs models acc

/-- `extractManyToManyModels`: the synthesizer's entry point. Returns the
model list (with the consumed relation fields rewritten in place) and the
synthesized join models. -/
def extractManyToManyModels (models : List Model) : Except String (List Model × List Model) :=
  let manyToManyFields := filterManyToManyRelationFields models
  if manyToManyFields.isEmpty then .ok (models, [])
  else generateModels manyToManyFields models []

/-! ## Shared generator scaffolding

The three dialect generators share their constraint/index/relation text
shapes; the dialect-specific leaves (type mapper, default translator,
escaping or not, inline-reference shortcut or not) are passed in or written
per dialect below. -/

/-- JS truthiness of `field.default` (`if (field.default)`): a literal `0`,
`""` or `false` default is skipped by the source. -/
def DefaultValue.jsTruthy : DefaultValue → Bool
  | .lit v => v.truthy
  | .list _ => true
  | .fn _ _ => true

/-- `field.relationToFields?.length == 1`. -/
def lenEqOne : Option (List α) → Bool
  | some l => l.length = 1
  | none => false

/-- The process-lifetime, module-scope import sets of one dialect generator
module (`mySqlImports`/`pgImports`/`sqliteImports` and `drizzleImports`). -/
structure GenState where
  dialectImports : List String
  drizzleImports : List String
deriving Repr, DecidableEq

/-- The `mysql.ts` module's sets as initialized at load. -/
def mysqlInitState : GenState := ⟨["mysqlTable"], []⟩

/-- The `pg.ts` module's sets as initialized at load. -/
def pgInitState : GenState := ⟨["pgTable"], []⟩

/-- The `sqlite.ts` module's sets as initialized at load. -/
def sqliteInitState : GenState := ⟨["sqliteTable"], []⟩

/-- What one model contributes to a dialect generator's run: its table
declaration, its optional relations declaration, and the import names added
to the dialect and `drizzle-orm` sets along the way. -/
structure ModelOut where
  table : String
  rqb : Option String
  dialectAdds : List String
  drizzleAdds : List String
deriving Repr, DecidableEq

/-- Everything a generator run computes before the emitter reads the import
sets: enum declarations (Postgres only), table and relation declarations, and
the import names added during the run, in order. -/
structure CoreOut where
  enums : List String := []
  tables : List String
  rqb : List String
  dialectAdds : List String
  drizzleAdds : List String
deriving Repr, DecidableEq

/-- Whether a run failed (a thrown `GeneratorError`/`Error`). -/
def isErr : Except ε α → Bool
  | .error _ => true
  | .ok _ => false

/-- The generators' sequential per-model loop (`for ... of`), short-circuiting
on the first thrown error. -/
def mapME (g : α → Except ε β) : List α → Except ε (List β)
  | [] => .ok []
  | x :: xs => do
    let y ← g x
    let ys ← mapME g xs
    .ok (y :: ys)

/-- Fold a run's added import names into the module-scope sets. -/
def stepState (st : GenState) (co : CoreOut) : GenState :=
  ⟨co.dialectAdds.foldl insertSet st.dialectImports, co.drizzleAdds.foldl insertSet st.drizzleImports⟩

/-- The shared emitter tail of every generator: sorted import lines (omitted
when empty), then enum, table and relation declarations joined by blank
lines. -/
def emitText (dialectModule : String) (st : GenState) (co : CoreOut) : String :=
  let drizzleImportsArr := sortStrings st.drizzleImports
  let drizzleImportsStr :=
    if drizzleImportsArr.isEmpty then none
    else some ("import \x7b " ++ String.intercalate ", " drizzleImportsArr ++ " \x7d from 'drizzle-orm'")
  let dialectImportsArr := sortStrings st.dialectImports
  let dialectImportsStr :=
    if dialectImportsArr.isEmpty then none
    else some ("import \x7b " ++ String.intercalate ", " dialectImportsArr ++ " \x7d from '"
      ++ dialectModule ++ "'")
  let importsJoined := String.intercalate "\n" ([drizzleImportsStr, dialectImportsStr].filterMap id)
  let importsStr := if importsJoined = "" then none else some importsJoined
  String.intercalate "\n\n" (([importsStr].filterMap id) ++ co.enums ++ co.tables ++ co.rqb)

/-- The delete-action translation shared by the dialects (`SetDefault` is only
recognized by the Postgres generator); an unrecognized action is fatal. -/
def translateDeleteAction (allowSetDefault : Bool) (fkeyName : String) (onDelete : Option String) :
    Except String String :=
  match onDelete with
  | none => .ok "cascade"
  | some a =>
    if a = "Cascade" then .ok "cascade"
    else if a = "SetNull" then .ok "set null"
    else if allowSetDefault && a = "SetDefault" then .ok "set default"
    else if a = "Restrict" then .ok "restrict"
    else if a = "NoAction" then .ok "no action"
    else .error ("Unknown delete action on relation " ++ fkeyName ++ ": " ++ a)

/-- The `foreignKey({ name, columns, foreignColumns })` declaration text,
before the action suffix. -/
def fkBaseText (tableName fkeyName fieldType : String) (fromFields toFields : List String) : String :=
  "\t'" ++ fkeyName ++ "': foreignKey(\x7b\n\t\tname: '" ++ fkeyName ++ "',\n\t\tcolumns: [" ++
    String.intercalate ", " (fromFields.map fun r => tableName ++ "." ++ r) ++
    "],\n\t\tforeignColumns: [" ++
    String.intercalate ", " (toFields.map fun r => fieldType ++ "." ++ r) ++ "]\n\t\x7d)"

/-- The `.onDelete(...)`/`.onUpdate('cascade')` suffix of a foreign-key
declaration: `onDelete` is emitted only for a non-empty action other than
`no action`; `onUpdate('cascade')` always. -/
def fkActionSuffix (deleteAction : String) : String :=
  (if deleteAction ≠ "" && deleteAction ≠ "no action" then
    "\n\t\t.onDelete('" ++ deleteAction ++ "')"
  else "") ++ "\n\t\t.onUpdate('cascade')"

/-- What one relation field contributes inside the table callback: nothing, an
inline `.references(...)` appended to a column, or a named foreign-key
declaration. -/
inductive RelEntry where
  | skip
  | inline (colKey suffix : String)
  | decl (text : String)
deriving Repr, DecidableEq

/-- The `relFields.map(...)` loop of a generator: applies inline references to
the column object in field order and collects the foreign-key declarations
(each of which records the `foreignKey` import). -/
def applyRelations (relationEntry : Field → Except String RelEntry) :
    List Field → List (String × String) →
    Except String (List (String × String) × List String × List String)
  | [], cols => .ok (cols, [], [])
  | f :: fs, cols => do
    match ← relationEntry f with
    | .skip => applyRelations relationEntry fs cols
    | .inline k suffix => applyRelations relationEntry fs (objAppendAt cols k suffix)
    | .decl text => do
      let (cols2, decls, adds) ← applyRelations relationEntry fs cols
      .ok (cols2, text :: decls, "foreignKey" :: adds)

/-- A unique-index declaration: the object key is the source name verbatim
when one is given, else the synthesized `{table}_{fields}_key` name with its
last four characters replaced by `_unique_idx`; `escFn` is the escaping the
dialect applies to `idxName` (the identity for the MySQL generator). -/
def uniqueEntry (escFn : String → String) (tableName : String) (idx : UniqueIndex) : String :=
  let idxName := escFn (idx.name.getD (tableName ++ "_" ++ String.intercalate "_" idx.fields ++ "_key"))
  "\t'" ++
    (if truthyStr idx.name then idxName
     else strTake idxName (idxName.length - 4) ++ "_unique_idx") ++
    "': uniqueIndex('" ++ idxName ++ "')\n\t\t.on(" ++
    String.intercalate ", " (idx.fields.map fun f => tableName ++ "." ++ f) ++ ")"

/-- A primary-key declaration; the name falls back to `{table}_cpk`. -/
def pkEntry (escFn : String → String) (tableName : String) (pk : PrimaryKey) : String :=
  let pkName := escFn (pk.name.getD (tableName ++ "_cpk"))
  "\t'" ++ pkName ++ "': primaryKey(\x7b\n\t\tname: '" ++ pkName ++ "',\n\t\tcolumns: [" ++
    String.intercalate ", " (pk.fields.map fun f => tableName ++ "." ++ f) ++ "]\n\t\x7d)"

/-- The table declaration text (`mysqlTable`/`pgTable`/`sqliteTable`). -/
def tableDecl (ctor tableName tableDbName : String) (columnFields : List (String × String))
    (indexes : List String) : String :=
  "export const " ++ tableName ++ " = " ++ ctor ++ "('" ++ tableDbName ++ "', \x7b\n" ++
    String.intercalate ",\n" (columnFields.map fun p => p.2) ++ "\n\x7d" ++
    (if indexes.isEmpty then ""
     else ", (" ++ tableName ++ ") => (\x7b\n" ++ String.intercalate ",\n" indexes ++ "\n\x7d)") ++
    ");"

/-- One field of a relations declaration, MySQL generator style: keyed by the
raw relation name and interpolating it unescaped. -/
def mysql_rqbField (tableName : String) (field : Field) : String :=
  let rn := field.relationName.getD "undefined"
  "\t'" ++ rn ++ "': " ++
    (if truthyLen field.relationFromFields then
      "one(" ++ field.type ++ ", \x7b\n\t\trelationName: '" ++ rn ++ "',\n\t\tfields: [" ++
        String.intercalate ", " ((field.relationFromFields.getD []).map fun e => tableName ++ "." ++ e) ++
        "],\n\t\treferences: [" ++
        String.intercalate ", " ((field.relationToFields.getD []).map fun e => field.type ++ "." ++ e) ++
        "]\n\t\x7d)"
    else "many(" ++ field.type ++ ", \x7b\n\t\trelationName: '" ++ rn ++ "'\n\t\x7d)")

/-- One field of a relations declaration, Postgres/SQLite generator style:
keyed by the field name, the relation name escaped. -/
def rqbFieldEsc (tableName : String) (field : Field) : String :=
  let relName := s (field.relationName.getD "") sqt
  "\t" ++ field.name ++ ": " ++
    (if truthyLen field.relationFromFields then
      "one(" ++ field.type ++ ", \x7b\n\t\trelationName: '" ++ relName ++ "',\n\t\tfields: [" ++
        String.intercalate ", " ((field.relationFromFields.getD []).map fun e => tableName ++ "." ++ e) ++
        "],\n\t\treferences: [" ++
        String.intercalate ", " ((field.relationToFields.getD []).map fun e => field.type ++ "." ++ e) ++
        "]\n\t\x7d)"
    else "many(" ++ field.type ++ ", \x7b\n\t\trelationName: '" ++ relName ++ "'\n\t\x7d)")

/-- The `export const {name}Relations = relations(...)` declaration. -/
def rqbDecl (rqbFieldFn : String → Field → String) (schemaTable : Model)
    (relFields : List Field) : String :=
  let relationArgs := relFields.foldl
    (fun acc f => insertSet acc (if truthyLen f.relationFromFields then "one" else "many")) []
  let rqbFields := String.intercalate ",\n" (relFields.map (rqbFieldFn schemaTable.name))
  "export const " ++ schemaTable.name ++ "Relations = relations(" ++ schemaTable.name ++
    ", (\x7b " ++ String.intercalate ", " relationArgs ++ " \x7d) => (\x7b\n" ++ rqbFields ++
    "\n\x7d));"

/-! ## `generateMySqlSchema` (`src/util/generators/mysql.ts`)

The MySQL generator matches the scalar type case-sensitively, consults no
native-type annotation, applies no escaping anywhere, inlines single-column
references on the column, and has no `SetDefault` case and no UUID default
pattern. -/

/-- The MySQL type mapper; fatal for `Bytes`, `none` for an unmapped type. -/
def mysql_prismaToDrizzleType (type colDbName : String) (prismaEnum : Option DatamodelEnum) :
    Except String (Option String × List String) :=
  match prismaEnum with
  | some e =>
    .ok (some ("mysqlEnum('" ++ colDbName ++ "', [" ++
      String.intercalate ", " (e.values.map fun v => "'" ++ (v.dbName.getD v.name) ++ "'") ++ "])"),
      ["mysqlEnum"])
  | none =>
    if type = "BigInt" then
      .ok (some ("bigint('" ++ colDbName ++ "', \x7b mode: 'bigint' \x7d)"), ["bigint"])
    else if type = "Boolean" then
      .ok (some ("boolean('" ++ colDbName ++ "')"), ["boolean"])
    else if type = "Bytes" then
      .error "Drizzle ORM doesn't support binary data type for MySQL"
    else if type = "DateTime" then
      .ok (some ("datetime('" ++ colDbName ++ "', \x7b fsp: 3 \x7d)"), ["datetime"])
    else if type = "Decimal" then
      .ok (some ("decimal('" ++ colDbName ++ "', \x7b precision: 65, scale: 30 \x7d)"), ["decimal"])
    else if type = "Float" then
      .ok (some ("double('" ++ colDbName ++ "')"), ["double"])
    else if type = "JSON" then
      .ok (some ("json('" ++ colDbName ++ "')"), ["json"])
    else if type = "Int" then
      .ok (some ("int('" ++ colDbName ++ "')"), ["int"])
    else if type = "String" then
      .ok (some ("varchar('" ++ colDbName ++ "', \x7b length: 191 \x7d)"), ["varchar"])
    else .ok (none, [])

/-- The MySQL default translator appended to the flag modifiers; returns the
column text and the names added to the `drizzle-orm` import set. The
`dbgenerated` argument and the fallback call text are interpolated raw. -/
def mysql_addColumnModifiers (field : Field) (column : String) : String × List String :=
  let column := if field.isRequired then column ++ ".notNull()" else column
  let column := if field.isId then column ++ ".primaryKey()" else column
  let column := if field.isUnique then column ++ ".unique()" else column
  match field.default with
  | none => (column, [])
  | some d =>
    if !d.jsTruthy then (column, [])
    else
      match d with
      | .lit v => (column ++ ".default(" ++ v.json ++ ")", [])
      | .list vs =>
        (column ++ ".default(\n\t\t\t\t\t\tsql`ARRAY[" ++
          String.intercalate "," (vs.map fun v => v.str) ++ "]`))", ["sql"])
      | .fn name args =>
        if name = "now" then (column ++ ".default(sql`CURRENT_TIMESTAMP`)", [])
        else if name = "autoincrement" then (column ++ ".autoincrement()", [])
        else if name = "dbgenerated" then
          (column ++ ".default(sql`" ++ ((args.head?.map fun v => v.str).getD "undefined") ++ "`)",
            ["sql"])
        else
          let stringified := name ++ "(" ++ String.intercalate ", " (args.map fun v => v.str) ++ ")"
          (column ++ ".default(sql`" ++ stringified ++ "`)", ["sql"])

/-- The MySQL column builder: `none` drops the field from the column list. -/
def mysql_prismaToDrizzleColumn (field : Field) (enums : List DatamodelEnum) :
    Except String (Option String × List String × List String) := do
  let colDbName := field.dbName.getD field.name
  let column := "\t" ++ field.name ++ ": "
  let (ctorOpt, mAdds) ← mysql_prismaToDrizzleType field.type colDbName
    (if field.kind = .enum then enums.find? fun e => e.name = field.type else none)
  match ctorOpt with
  | none => .ok (none, mAdds, [])
  | some ctor =>
    let (col, dAdds) := mysql_addColumnModifiers field (column ++ ctor)
    .ok (some col, mAdds, dAdds)

/-- The per-field column entries of one table, with the import names added. -/
def mysql_columnEntries (enums : List DatamodelEnum) :
    List Field → Except String (List (String × Option String) × List String × List String)
  | [] => .ok ([], [], [])
  | f :: fs => do
    let (colOpt, ma, da) ← mysql_prismaToDrizzleColumn f enums
    let (rest, mas, das) ← mysql_columnEntries enums fs
    .ok ((f.name, colOpt) :: rest, ma ++ mas, da ++ das)

/-- The derived foreign-key name `{table}_{field}_fkey` (physical names
preferred), before any escaping. -/
def fkNameOf (schemaTable : Model) (field : Field) : String :=
  (schemaTable.dbName.getD schemaTable.name) ++ "_" ++ (field.dbName.getD field.name) ++ "_fkey"

/-- One relation field of the MySQL generator: non-owning fields contribute
nothing, a single-column reference is inlined on the column, anything else
becomes a named foreign-key declaration. -/
def mysql_relationEntry (schemaTable : Model) (field : Field) : Except String RelEntry := do
  if !truthyLen field.relationFromFields then .ok .skip
  else
    let ff := field.relationFromFields.getD []
    let tf := field.relationToFields.getD []
    if ff.length = 1 && lenEqOne field.relationToFields then
      .ok (.inline (ff.headD "")
        (".references(() => " ++ field.type ++ "." ++ (tf.headD "") ++ ")"))
    else
      let fkeyName := fkNameOf schemaTable field
      let da ← translateDeleteAction false fkeyName field.relationOnDelete
      .ok (.decl (fkBaseText schemaTable.name fkeyName field.type ff tf ++ fkActionSuffix da))

/-- Everything the MySQL generator emits for one model. -/
def mysql_modelOutput (enums : List DatamodelEnum) (schemaTable : Model) :
    Except String ModelOut := do
  let tableDbName := schemaTable.dbName.getD schemaTable.name
  let (entries, mAdds, dAdds) ← mysql_columnEntries enums schemaTable.fields
  let columnFields := fromEntries (entries.filterMap fun p => p.2.map fun c => (p.1, c))
  let relFields := schemaTable.fields.filter fun f =>
    f.relationToFields.isSome && f.relationFromFields.isSome
  let (columnFields2, relDecls, fkAdds) ←
    applyRelations (mysql_relationEntry schemaTable) relFields columnFields
  let idxUnique := schemaTable.uniqueIndexes.map (uniqueEntry id schemaTable.name)
  let uniqueAdds := if schemaTable.uniqueIndexes.isEmpty then [] else ["uniqueIndex"]
  let (pkDecls, pkAdds) :=
    match schemaTable.primaryKey with
    | none => (([] : List String), ([] : List String))
    | some pk => ([pkEntry id schemaTable.name pk], ["primaryKey"])
  let indexes := relDecls ++ idxUnique ++ pkDecls
  let table := tableDecl "mysqlTable" schemaTable.name tableDbName columnFields2 indexes
  let rqb := if relFields.isEmpty then none
    else some (rqbDecl mysql_rqbField schemaTable relFields)
  let drizzleRel := if relFields.isEmpty then ([] : List String) else ["relations"]
  .ok { table := table, rqb := rqb,
        dialectAdds := mAdds ++ fkAdds ++ uniqueAdds ++ pkAdds,
        drizzleAdds := dAdds ++ drizzleRel }

/-- The MySQL generator's run up to the emitter: many-to-many synthesis, then
every model's contribution in order. -/
def mysql_core (dm : Datamodel) : Except String CoreOut := do
  let (models2, joins) ← extractManyToManyModels dm.models
  let outs ← mapME (mysql_modelOutput dm.enums) (models2 ++ joins)
  .ok { enums := [], tables := outs.map fun o => o.table,
        rqb := outs.filterMap fun o => o.rqb,
        dialectAdds := (outs.map fun o => o.dialectAdds).foldr (· ++ ·) [],
        drizzleAdds := (outs.map fun o => o.drizzleAdds).foldr (· ++ ·) [] }

/-- `generateMySqlSchema`, with the module-scope import sets as explicit
state: the run folds the names it used into the sets and the emitter reads
the sets (not just the run's own adds), exactly as the source's module
globals behave across invocations in one process. -/
def generateMySqlSchema (st : GenState) (options : Datamodel) : Except String (String × GenState) := do
  let co ← mysql_core options
  let st2 := stepState st co
  .ok (emitText "drizzle-orm/mysql-core" st2 co, st2)

/-! ## `generatePgSchema` (`src/util/generators/pg.ts`)

The Postgres generator lowercases the scalar type, consults the original
schema text (through the `prisma-ast` builder, modelled as `AstModel` data)
for a field's `@db.*` attribute, escapes names and raw-SQL text, emits enum
declarations, never inlines references, recognizes `SetDefault` and the UUID
default pattern, and substitutes `serial` for `Int` + `autoincrement`. -/

/-- A model of the `prisma-ast` answer for one field: its `@db.*` attribute
name, when the schema text carries one. -/
structure AstField where
  name : String
  dbAttr : Option String := none
deriving Repr, DecidableEq

/-- A model of the `prisma-ast` answer for one model of the schema text. -/
structure AstModel where
  name : String
  fields : List AstField
deriving Repr, DecidableEq

/-- Whether a default function name matches `/^uuid\([0-9]*\)$/`. -/
def isUuidCall (name : String) : Bool :=
  jsStartsWith name "uuid(" && jsEndsWith name ")" && name.length ≥ 6 &&
    ((name.data.drop 5).dropLast).all Char.isDigit

/-- The Postgres type mapper; fatal for `bytes`, `none` for an unmapped type;
a truthy native type overrides the `datetime` constructor; `int` with an
`autoincrement` default becomes `serial`. -/
def pg_prismaToDrizzleType (type colDbName : String) (defVal : Option String)
    (nativeType : Option String) : Except String (Option String × List String) :=
  let t := jsToLower type
  if t = "bigint" then
    .ok (some ("bigint('" ++ colDbName ++ "', \x7b mode: 'bigint' \x7d)"), ["bigint"])
  else if t = "boolean" then
    .ok (some ("boolean('" ++ colDbName ++ "')"), ["boolean"])
  else if t = "bytes" then
    .error "Drizzle ORM doesn't support binary data type for PostgreSQL"
  else if t = "datetime" then
    if truthyStr nativeType then
      let nt := nativeType.getD ""
      .ok (some (nt ++ "('" ++ colDbName ++ "', \x7b precision: 3 \x7d)"), [nt])
    else
      .ok (some ("timestamp('" ++ colDbName ++ "', \x7b precision: 3 \x7d)"), ["timestamp"])
  else if t = "decimal" then
    .ok (some ("decimal('" ++ colDbName ++ "', \x7b precision: 65, scale: 30 \x7d)"), ["decimal"])
  else if t = "float" then
    .ok (some ("doublePrecision('" ++ colDbName ++ "')"), ["doublePrecision"])
  else if t = "json" then
    .ok (some ("jsonb('" ++ colDbName ++ "')"), ["jsonb"])
  else if t = "int" then
    if defVal = some "autoincrement" then
      .ok (some ("serial('" ++ colDbName ++ "')"), ["serial"])
    else
      .ok (some ("integer('" ++ colDbName ++ "')"), ["integer"])
  else if t = "string" then
    .ok (some ("text('" ++ colDbName ++ "')"), ["text"])
  else .ok (none, [])

/-- The Postgres default translator appended to the flag modifiers (`.array()`
first for list fields); `dbgenerated` and fallback call text pass through the
escaper with the backtick container. -/
def pg_addColumnModifiers (field : Field) (column : String) : String × List String :=
  let column := if field.isList then column ++ ".array()" else column
  let column := if field.isRequired then column ++ ".notNull()" else column
  let column := if field.isId then column ++ ".primaryKey()" else column
  let column := if field.isUnique then column ++ ".unique()" else column
  match field.default with
  | none => (column, [])
  | some d =>
    if !d.jsTruthy then (column, [])
    else
      match d with
      | .lit v => (column ++ ".default(" ++ v.json ++ ")", [])
      | .list vs =>
        (column ++ ".default([" ++ String.intercalate ", " (vs.map fun v => v.json) ++ "])", [])
      | .fn name args =>
        if name = "now" then (column ++ ".defaultNow()", [])
        else if name = "autoincrement" then (column, [])
        else if name = "dbgenerated" then
          (column ++ ".default(sql`" ++ s ((args.head?.map fun v => v.str).getD "undefined") btk
            ++ "`)", ["sql"])
        else if isUuidCall name then
          (column ++ ".default(sql`uuid()`)", ["sql"])
        else
          let stringified := name ++
            (if !args.isEmpty then "(" ++ String.intercalate ", " (args.map fun v => v.str) ++ ")"
             else if jsEndsWith name ")" then "" else "()")
          (column ++ ".default(sql`" ++ s stringified btk ++ "`)", ["sql"])

/-- The Postgres column builder: an enum-kind field references its enum
constructor directly; otherwise the scalar map decides, `none` dropping the
field. -/
def pg_prismaToDrizzleColumn (field : Field) (nativeType : Option String) :
    Except String (Option String × List String × List String) := do
  let colDbName := s (field.dbName.getD field.name) sqt
  let column := "\t" ++ field.name ++ ": "
  if field.kind = .enum then
    let (col, dAdds) := pg_addColumnModifiers field
      (column ++ field.type ++ "('" ++ colDbName ++ "')")
    .ok (some col, [], dAdds)
  else
    let defVal := match field.default with
      | some (.fn n _) => some n
      | _ => none
    let (ctorOpt, pAdds) ← pg_prismaToDrizzleType field.type colDbName defVal nativeType
    match ctorOpt with
    | none => .ok (none, pAdds, [])
    | some ctor =>
      let (col, dAdds) := pg_addColumnModifiers field (column ++ ctor)
      .ok (some col, pAdds, dAdds)

/-- The per-field column entries of one Postgres table: each field is first
looked up in the schema AST (a missing field is fatal, with the source's
misworded message) for its `@db` attribute. -/
def pg_columnEntries (modelAst : AstModel) :
    List Field → Except String (List (String × Option String) × List String × List String)
  | [] => .ok ([], [], [])
  | f :: fs => do
    match modelAst.fields.find? fun af => af.name = f.name with
    | none => .error ("Model " ++ modelAst.name ++ " not found in schema")
    | some fieldAst =>
      let (colOpt, pa, da) ← pg_prismaToDrizzleColumn f (fieldAst.dbAttr.map jsToLower)
      let (rest, pas, das) ← pg_columnEntries modelAst fs
      .ok ((f.name, colOpt) :: rest, pa ++ pas, da ++ das)

/-- One relation field of the Postgres generator: every owning relation
becomes a named foreign-key declaration (no inline shortcut); `SetDefault` is
recognized; the key name is escaped. -/
def pg_relationEntry (schemaTable : Model) (field : Field) : Except String RelEntry := do
  if !truthyLen field.relationFromFields then .ok .skip
  else
    let ff := field.relationFromFields.getD []
    let tf := field.relationToFields.getD []
    let fkeyName := s (fkNameOf schemaTable field) sqt
    let da ← translateDeleteAction true fkeyName field.relationOnDelete
    .ok (.decl (fkBaseText schemaTable.name fkeyName field.type ff tf ++ fkActionSuffix da))

/-- Everything the Postgres generator emits for one model; fatal when the
model is absent from the schema AST (as every synthesized join model is). -/
def pg_modelOutput (ast : List AstModel) (schemaTable : Model) : Except String ModelOut := do
  match ast.find? fun m => m.name = schemaTable.name with
  | none => .error ("Model " ++ schemaTable.name ++ " not found in schema")
  | some modelAst =>
    let tableDbName := s (schemaTable.dbName.getD schemaTable.name) sqt
    let (entries, pAdds, dAdds) ← pg_columnEntries modelAst schemaTable.fields
    let columnFields := fromEntries (entries.filterMap fun p => p.2.map fun c => (p.1, c))
    let relFields := schemaTable.fields.filter fun f =>
      f.relationToFields.isSome && f.relationFromFields.isSome
    let (columnFields2, relDecls, fkAdds) ←
      applyRelations (pg_relationEntry schemaTable) relFields columnFields
    let idxUnique := schemaTable.uniqueIndexes.map (uniqueEntry (fun x => s x sqt) schemaTable.name)
    let uniqueAdds := if schemaTable.uniqueIndexes.isEmpty then [] else ["uniqueIndex"]
    let (pkDecls, pkAdds) :=
      match schemaTable.primaryKey with
      | none => (([] : List String), ([] : List String))
      | some pk => ([pkEntry (fun x => s x sqt) schemaTable.name pk], ["primaryKey"])
    let indexes := relDecls ++ idxUnique ++ pkDecls
    let table := tableDecl "pgTable" schemaTable.name tableDbName columnFields2 indexes
    let rqb := if relFields.isEmpty then none
      else some (rqbDecl rqbFieldEsc schemaTable relFields)
    let drizzleRel := if relFields.isEmpty then ([] : List String) else ["relations"]
    .ok { table := table, rqb := rqb,
          dialectAdds := pAdds ++ fkAdds ++ uniqueAdds ++ pkAdds,
          drizzleAdds := dAdds ++ drizzleRel }

/-- The Postgres enum declaration; the enum name is escaped, the value
literals are interpolated raw. -/
def pg_enumDecl (e : DatamodelEnum) : String :=
  "export const " ++ e.name ++ " = pgEnum('" ++ s (e.dbName.getD e.name) sqt ++ "', [" ++
    String.intercalate ", " (e.values.map fun v => "'" ++ (v.dbName.getD v.name) ++ "'") ++ "])"

/-- The Postgres generator's run up to the emitter: non-empty enums first,
then many-to-many synthesis, then every model. -/
def pg_core (dm : Datamodel) (ast : List AstModel) : Except String CoreOut := do
  let (models2, joins) ← extractManyToManyModels dm.models
  let enumsKept := dm.enums.filter fun e => !e.values.isEmpty
  let outs ← mapME (pg_modelOutput ast) (models2 ++ joins)
  .ok { enums := enumsKept.map pg_enumDecl,
        tables := outs.map fun o => o.table,
        rqb := outs.filterMap fun o => o.rqb,
        dialectAdds := (enumsKept.map fun _ => "pgEnum") ++
          (outs.map fun o => o.dialectAdds).foldr (· ++ ·) [],
        drizzleAdds := (outs.map fun o => o.drizzleAdds).foldr (· ++ ·) [] }

/-- `generatePgSchema`, with the module-scope import sets as explicit state
and the schema text's AST as input. -/
def generatePgSchema (st : GenState) (options : Datamodel) (ast : List AstModel) :
    Except String (String × GenState) := do
  let co ← pg_core options ast
  let st2 := stepState st co
  .ok (emitText "drizzle-orm/pg-core" st2 co, st2)

/-! ## `generateSQLiteSchema` (`src/util/generators/sqlite.ts`)

The SQLite generator lowercases the scalar type, maps `bytes` to a `blob`
column (no fatal case), has no enum handling (enum-typed fields fall through
the scalar switch and are dropped), inlines single-column references, escapes
names and raw-SQL text, and treats `autoincrement` as a no-op. -/

/-- The SQLite type mapper; never fatal, `none` for an unmapped type. -/
def sqlite_prismaToDrizzleType (type colDbName : String) : Option String × List String :=
  let t := jsToLower type
  if t = "bigint" then (some ("int('" ++ colDbName ++ "')"), ["int"])
  else if t = "boolean" then (some ("int('" ++ colDbName ++ "', \x7b mode: 'boolean' \x7d)"), ["int"])
  else if t = "bytes" then (some ("blob('" ++ colDbName ++ "', \x7b mode: 'buffer' \x7d)"), ["blob"])
  else if t = "datetime" then (some ("numeric('" ++ colDbName ++ "')"), ["numeric"])
  else if t = "decimal" then (some ("numeric('" ++ colDbName ++ "')"), ["numeric"])
  else if t = "float" then (some ("real('" ++ colDbName ++ "')"), ["real"])
  else if t = "json" then (some ("text('" ++ colDbName ++ "', \x7b mode: 'json' \x7d)"), ["text"])
  else if t = "int" then (some ("int('" ++ colDbName ++ "')"), ["int"])
  else if t = "string" then (some ("text('" ++ colDbName ++ "')"), ["text"])
  else (none, [])

/-- The SQLite default translator appended to the flag modifiers;
`autoincrement` is a no-op, `dbgenerated` and fallback text are escaped. -/
def sqlite_addColumnModifiers (field : Field) (column : String) : String × List String :=
  let column := if field.isRequired then column ++ ".notNull()" else column
  let column := if field.isId then column ++ ".primaryKey()" else column
  let column := if field.isUnique then column ++ ".unique()" else column
  match field.default with
  | none => (column, [])
  | some d =>
    if !d.jsTruthy then (column, [])
    else
      match d with
      | .lit v => (column ++ ".default(" ++ v.json ++ ")", [])
      | .list vs =>
        (column ++ ".default(\n\t\t\t\t\t\tsql`ARRAY[" ++
          String.intercalate "," (vs.map fun v => v.str) ++ "]`))", ["sql"])
      | .fn name args =>
        if name = "now" then (column ++ ".default(sql`DATE('now')`)", [])
        else if name = "autoincrement" then (column, [])
        else if name = "dbgenerated" then
          (column ++ ".default(sql`" ++ s ((args.head?.map fun v => v.str).getD "undefined") btk
            ++ "`)", ["sql"])
        else
          let stringified := name ++ "(" ++ String.intercalate ", " (args.map fun v => v.str) ++ ")"
          (column ++ ".default(sql`" ++ s stringified btk ++ "`)", ["sql"])

/-- The SQLite column builder. -/
def sqlite_prismaToDrizzleColumn (field : Field) :
    Option String × List String × List String :=
  let colDbName := s (field.dbName.getD field.name) sqt
  let column := "\t" ++ field.name ++ ": "
  match sqlite_prismaToDrizzleType field.type colDbName with
  | (none, sAdds) => (none, sAdds, [])
  | (some ctor, sAdds) =>
    let (col, dAdds) := sqlite_addColumnModifiers field (column ++ ctor)
    (some col, sAdds, dAdds)

/-- The per-field column entries of one SQLite table. -/
def sqlite_columnEntries : List Field → List (String × Option String) × List String × List String
  | [] => ([], [], [])
  | f :: fs =>
    let (colOpt, sa, da) := sqlite_prismaToDrizzleColumn f
    let (rest, sas, das) := sqlite_columnEntries fs
    ((f.name, colOpt) :: rest, sa ++ sas, da ++ das)

/-- One relation field of the SQLite generator: like MySQL's (inline
single-column shortcut, no `SetDefault`), with the key name escaped. -/
def sqlite_relationEntry (schemaTable : Model) (field : Field) : Except String RelEntry := do
  if !truthyLen field.relationFromFields then .ok .skip
  else
    let ff := field.relationFromFields.getD []
    let tf := field.relationToFields.getD []
    if ff.length = 1 && lenEqOne field.relationToFields then
      .ok (.inline (ff.headD "")
        (".references(() => " ++ field.type ++ "." ++ (tf.headD "") ++ ")"))
    else
      let fkeyName := s (fkNameOf schemaTable field) sqt
      let da ← translateDeleteAction false fkeyName field.relationOnDelete
      .ok (.decl (fkBaseText schemaTable.name fkeyName field.type ff tf ++ fkActionSuffix da))

/-- Everything the SQLite generator emits for one model. -/
def sqlite_modelOutput (schemaTable : Model) : Except String ModelOut := do
  let tableDbName := s (schemaTable.dbName.getD schemaTable.name) sqt
  let (entries, sAdds, dAdds) := sqlite_columnEntries schemaTable.fields
  let columnFields := fromEntries (entries.filterMap fun p => p.2.map fun c => (p.1, c))
  let relFields := schemaTable.fields.filter fun f =>
    f.relationToFields.isSome && f.relationFromFields.isSome
  let (columnFields2, relDecls, fkAdds) ←
    applyRelations (sqlite_relationEntry schemaTable) relFields columnFields
  let idxUnique := schemaTable.uniqueIndexes.map (uniqueEntry (fun x => s x sqt) schemaTable.name)
  let uniqueAdds := if schemaTable.uniqueIndexes.isEmpty then [] else ["uniqueIndex"]
  let (pkDecls, pkAdds) :=
    match schemaTable.primaryKey with
    | none => (([] : List String), ([] : List String))
    | some pk => ([pkEntry (fun x => s x sqt) schemaTable.name pk], ["primaryKey"])
  let indexes := relDecls ++ idxUnique ++ pkDecls
  let table := tableDecl "sqliteTable" schemaTable.name tableDbName columnFields2 indexes
  let rqb := if relFields.isEmpty then none
    else some (rqbDecl rqbFieldEsc schemaTable relFields)
  let drizzleRel := if relFields.isEmpty then ([] : List String) else ["relations"]
  .ok { table := table, rqb := rqb,
        dialectAdds := sAdds ++ fkAdds ++ uniqueAdds ++ pkAdds,
        drizzleAdds := dAdds ++ drizzleRel }

/-- The SQLite generator's run up to the emitter. -/
def sqlite_core (dm : Datamodel) : Except String CoreOut := do
  let (models2, joins) ← extractManyToManyModels dm.models
  let outs ← mapME sqlite_modelOutput (models2 ++ joins)
  .ok { enums := [], tables := outs.map fun o => o.table,
        rqb := outs.filterMap fun o => o.rqb,
        dialectAdds := (outs.map fun o => o.dialectAdds).foldr (· ++ ·) [],
        drizzleAdds := (outs.map fun o => o.drizzleAdds).foldr (· ++ ·) [] }

/-- `generateSQLiteSchema`, with the module-scope import sets as explicit
state. -/
def generateSQLiteSchema (st : GenState) (options : Datamodel) :
    Except String (String × GenState) := do
  let co ← sqlite_core options
  let st2 := stepState st co
  .ok (emitText "drizzle-orm/sqlite-core" st2 co, st2)

/-! ## Concrete inputs used by the claims -/

/-- The spec's §8 scenario `User{id Int autoincrement primary key, email
String unique}` as its DMMF: both fields are non-optional, so `isRequired` is
true. -/
def scenarioUser : Model :=
  { name := "User", fields :=
    [ { name := "id", type := "Int", isId := true, isRequired := true,
        hasDefaultValue := true, default := some (.fn "autoincrement" []) },
      { name := "email", type := "String", isUnique := true, isRequired := true } ] }

/-- The schema-text AST answers for `scenarioUser` (no `@db` attributes). -/
def scenarioUserAst : List AstModel :=
  [{ name := "User", fields := [{ name := "id" }, { name := "email" }] }]

/-- A one-to-one pair whose owning side has a single foreign-key column and no
explicit delete action. -/
def profileModel : Model :=
  { name := "Profile", fields :=
    [ { name := "id", type := "Int", isId := true, isRequired := true },
      { name := "userId", type := "Int", isRequired := true },
      { name := "user", type := "User", kind := .object, isRequired := true,
        relationName := some "ProfileToUser", relationFromFields := some ["userId"],
        relationToFields := some ["id"] } ] }

/-- The non-owning side of `profileModel`'s relation. -/
def profileUserModel : Model :=
  { name := "User", fields :=
    [ { name := "id", type := "Int", isId := true, isRequired := true },
      { name := "profile", type := "Profile", kind := .object,
        relationName := some "ProfileToUser", relationFromFields := some [],
        relationToFields := some [] } ] }

/-- A many-to-one pair with a composite (two-column) foreign key and an
explicit `NoAction` delete action. -/
def orderModel : Model :=
  { name := "Order", fields :=
    [ { name := "a1", type := "Int", isRequired := true },
      { name := "a2", type := "Int", isRequired := true },
      { name := "cust", type := "Customer", kind := .object, isRequired := true,
        relationName := some "CustomerToOrder", relationFromFields := some ["a1", "a2"],
        relationToFields := some ["k1", "k2"], relationOnDelete := some "NoAction" } ] }

/-- The non-owning side of `orderModel`'s relation. -/
def customerModel : Model :=
  { name := "Customer", fields :=
    [ { name := "k1", type := "Int", isId := true, isRequired := true },
      { name := "k2", type := "Int", isRequired := true },
      { name := "orders", type := "Order", kind := .object, isList := true,
        relationName := some "CustomerToOrder", relationFromFields := some [],
        relationToFields := some [] } ] }

/-- A model carrying an explicitly named unique index whose name ends in
`_key`. -/
def namedIdxModel : Model :=
  { name := "User", fields :=
    [ { name := "id", type := "Int", isId := true, isRequired := true },
      { name := "email", type := "String", isRequired := true } ],
    uniqueIndexes := [{ name := some "Email_key", fields := ["email"] }] }

/-- Two models declared in reverse lexicographic order, each with a
list-valued relation field to the other under the shared relation name
`"AppleToZebra"` and no owning fields. -/
def zebraModel : Model :=
  { name := "Zebra", fields :=
    [ { name := "id", type := "Int", isId := true, isRequired := true },
      { name := "apples", type := "Apple", kind := .object, isList := true,
        relationName := some "AppleToZebra", relationFromFields := some [],
        relationToFields := some [] } ] }

/-- See `zebraModel`. -/
def appleModel : Model :=
  { name := "Apple", fields :=
    [ { name := "id", type := "Int", isId := true, isRequired := true },
      { name := "zebras", type := "Zebra", kind := .object, isList := true,
        relationName := some "AppleToZebra", relationFromFields := some [],
        relationToFields := some [] } ] }

/-- First of two disjoint qualifying many-to-many pairs. -/
def postModel : Model :=
  { name := "Post", fields :=
    [ { name := "id", type := "Int", isId := true, isRequired := true },
      { name := "tags", type := "Tag", kind := .object, isList := true,
        relationName := some "PostToTag", relationFromFields := some [],
        relationToFields := some [] } ] }

/-- See `postModel`. -/
def tagModel : Model :=
  { name := "Tag", fields :=
    [ { name := "id", type := "Int", isId := true, isRequired := true },
      { name := "posts", type := "Post", kind := .object, isList := true,
        relationName := some "PostToTag", relationFromFields := some [],
        relationToFields := some [] } ] }

/-- Second of two disjoint qualifying many-to-many pairs. -/
def xModel : Model :=
  { name := "X", fields :=
    [ { name := "id", type := "Int", isId := true, isRequired := true },
      { name := "ys", type := "Y", kind := .object, isList := true,
        relationName := some "XToY", relationFromFields := some [],
        relationToFields := some [] } ] }

/-- See `xModel`. -/
def yModel : Model :=
  { name := "Y", fields :=
    [ { name := "id", type := "Int", isId := true, isRequired := true },
      { name := "xs", type := "X", kind := .object, isList := true,
        relationName := some "XToY", relationFromFields := some [],
        relationToFields := some [] } ] }

/-- A model whose only relation field's relation name has no counterpart. -/
def soloModel : Model :=
  { name := "Solo", fields :=
    [ { name := "id", type := "Int", isId := true, isRequired := true },
      { name := "others", type := "Other", kind := .object, isList := true,
        relationName := some "R", relationFromFields := some [],
        relationToFields := some [] } ] }

/-- A datamodel with one mapped `Int` column and one field of a type no MySQL
case matches (Prisma renders an `Unsupported("...")` column type this way). -/
def unsupDm : Datamodel :=
  { models := [{ name := "T", fields :=
      [ { name := "a", type := "Int" },
        { name := "u", type := "Unsupported(\"polygon\")" } ] }],
    enums := [] }

/-- A one-model, one-`Int`-column datamodel. -/
def intOnlyDm : Datamodel :=
  { models := [{ name := "T", fields := [{ name := "a", type := "Int" }] }], enums := [] }

/-- The empty datamodel. -/
def emptyDm : Datamodel := { models := [], enums := [] }

/-- A one-model datamodel whose `data` field has the binary `Bytes` type. -/
def bytesDm : Datamodel :=
  { models := [
      { name := "File",
        fields := [
          { name := "id", type := "Int", isRequired := true, isId := true },
          { name := "data", type := "Bytes", isRequired := true } ] } ],
    enums := [] }

/-! ## Helper lemmas -/

/-- Membership in the accumulator survives `insertSet` folding. -/
theorem mem_foldl_insertSet {x : String} (l : List String) (acc : List String)
    (h : x ∈ acc) : x ∈ l.foldl insertSet acc := by
  induction l generalizing acc with
  | nil => exact h
  | cons y ys ih =>
    rw [List.foldl_cons]
    refine ih _ ?_
    unfold insertSet
    split
    · exact h
    · exact List.mem_append_left _ h

/-- Every folded-in name is a member of the result. -/
theorem mem_foldl_insertSet_self {x : String} (l : List String) (acc : List String)
    (h : x ∈ l) : x ∈ l.foldl insertSet acc := by
  induction l generalizing acc with
  | nil => cases h
  | cons y ys ih =>
    rw [List.foldl_cons]
    rcases List.mem_cons.mp h with hxy | hxs
    · subst hxy
      refine mem_foldl_insertSet _ _ ?_
      unfold insertSet
      split
      · assumption
      · exact List.mem_append_right _ (List.mem_singleton.mpr rfl)
    · exact ih _ hxs

/-- Folding names that are all present already changes nothing. -/
theorem foldl_insertSet_of_subset (l : List String) (acc : List String)
    (h : ∀ x ∈ l, x ∈ acc) : l.foldl insertSet acc = acc := by
  induction l generalizing acc with
  | nil => rfl
  | cons y ys ih =>
    have hy : insertSet acc y = acc := by
      unfold insertSet
      exact if_pos (h y (List.mem_cons_self y ys))
    rw [List.foldl_cons, hy]
    exact ih _ fun x hx => h x (List.mem_cons_of_mem _ hx)

/-- Folding a run's adds a second time is the identity: the module-scope sets
reach a fixed point after the first run. -/
theorem stepState_idem (st : GenState) (co : CoreOut) :
    stepState (stepState st co) co = stepState st co := by
  unfold stepState
  refine congrArg₂ GenState.mk ?_ ?_ <;>
    exact foldl_insertSet_of_subset _ _ fun x hx => mem_foldl_insertSet_self _ _ hx

/-- Binding an `Except.ok` value. -/
theorem except_bind_ok (a : α) (k : α → Except ε β) : (Except.ok a >>= k) = k a := rfl

/-- The column entries of a concatenation of field lists. -/
theorem mysql_columnEntries_append (enums : List DatamodelEnum) (l₁ l₂ : List Field) :
    mysql_columnEntries enums (l₁ ++ l₂) =
      (do
        let p1 ← mysql_columnEntries enums l₁
        let p2 ← mysql_columnEntries enums l₂
        .ok (p1.1 ++ p2.1, p1.2.1 ++ p2.2.1, p1.2.2 ++ p2.2.2)) := by
  induction l₁ with
  | nil =>
    show mysql_columnEntries enums l₂ = _
    cases h2 : mysql_columnEntries enums l₂ with
    | error e => rfl
    | ok p2 =>
      obtain ⟨e2, m2, d2⟩ := p2
      rfl
  | cons f fs ih =>
    show mysql_columnEntries enums (f :: (fs ++ l₂)) = _
    cases hf : mysql_prismaToDrizzleColumn f enums with
    | error e =>
      simp only [mysql_columnEntries, hf]
      rfl
    | ok trif =>
      simp only [mysql_columnEntries, hf, ih]
      cases h1 : mysql_columnEntries enums fs with
      | error e => rfl
      | ok p1 =>
        cases h2 : mysql_columnEntries enums l₂ with
        | error e => rfl
        | ok p2 =>
          obtain ⟨cf, maf, daf⟩ := trif
          obtain ⟨e1, m1, d1⟩ := p1
          obtain ⟨e2, m2, d2⟩ := p2
          show Except.ok ((f.name, cf) :: (e1 ++ e2), maf ++ (m1 ++ m2), daf ++ (d1 ++ d2)) =
            Except.ok (((f.name, cf) :: e1) ++ e2, (maf ++ m1) ++ m2, (daf ++ d1) ++ d2)
          simp [List.append_assoc]

/-- A scalar field whose type matches none of the MySQL generator's cases is
mapped to no column and records no import. -/
theorem mysql_column_unmapped (f : Field) (enums : List DatamodelEnum)
    (hk : f.kind = .scalar)
    (hne : f.type ∉ (["BigInt", "Boolean", "Bytes", "DateTime", "Decimal", "Float", "JSON",
      "Int", "String"] : List String)) :
    mysql_prismaToDrizzleColumn f enums = .ok (none, [], []) := by
  simp only [List.mem_cons, List.not_mem_nil, or_false, not_or] at hne
  obtain ⟨h1, h2, h3, h4, h5, h6, h7, h8, h9⟩ := hne
  simp only [mysql_prismaToDrizzleColumn, mysql_prismaToDrizzleType, hk, reduceCtorEq,
    if_false, if_neg h1, if_neg h2, if_neg h3, if_neg h4, if_neg h5, if_neg h6, if_neg h7,
    if_neg h8, if_neg h9]
  rfl

/-- Dropping one unmappable, non-relation field from a model's field list
leaves the MySQL generator's whole contribution for the model unchanged. -/
theorem mysql_modelOutput_drop (enums : List DatamodelEnum) (m : Model) (l₁ l₂ : List Field)
    (f : Field)
    (hcol : mysql_prismaToDrizzleColumn f enums = .ok (none, [], []))
    (hrel : f.relationToFields = none) :
    mysql_modelOutput enums { m with fields := l₁ ++ f :: l₂ } =
      mysql_modelOutput enums { m with fields := l₁ ++ l₂ } := by
  unfold mysql_modelOutput
  dsimp only
  rw [mysql_columnEntries_append enums l₁ (f :: l₂), mysql_columnEntries_append enums l₁ l₂]
  cases h1 : mysql_columnEntries enums l₁ with
  | error e => rfl
  | ok p1 =>
    cases h2 : mysql_columnEntries enums l₂ with
    | error e =>
      simp only [mysql_columnEntries, hcol, h2]
      rfl
    | ok p2 =>
      obtain ⟨e1, m1, d1⟩ := p1
      obtain ⟨e2, m2, d2⟩ := p2
      simp only [mysql_columnEntries, hcol, h2, except_bind_ok]
      have hfm : ((e1 ++ (f.name, none) :: e2).filterMap fun p => p.2.map fun c => (p.1, c))
          = ((e1 ++ e2).filterMap fun p => p.2.map fun c => (p.1, c)) := by
        simp [List.filterMap_append]
      have hrf : ((l₁ ++ f :: l₂).filter fun g =>
            g.relationToFields.isSome && g.relationFromFields.isSome)
          = ((l₁ ++ l₂).filter fun g =>
            g.relationToFields.isSome && g.relationFromFields.isSome) := by
        simp [List.filter_append, List.filter_cons, hrel]
      rw [hfm, hrf]
      rfl

/-- Slicing the 4-character `_key` suffix off and nothing else. -/
theorem strTake_append_key (x : String) :
    strTake (x ++ "_key") ((x ++ "_key").length - 4) = x := by
  obtain ⟨d⟩ := x
  show (⟨(d ++ "_key".data).take ((d ++ "_key".data).length - 4)⟩ : String) = ⟨d⟩
  have h1 : (d ++ "_key".data).length - 4 = d.length := by
    rw [List.length_append]
    show d.length + 4 - 4 = d.length
    omega
  rw [h1, List.take_left]

/-- An error on the left of a bind is an error of the bind. -/
theorem isErr_bind {x : Except ε α} (k : α → Except ε β) (h : isErr x = true) :
    isErr (x >>= k) = true := by
  cases x with
  | error e => rfl
  | ok a => simp [isErr] at h

/-- The per-model loop fails when it reaches a failing element. -/
theorem isErr_mapME {g : α → Except ε β} {x : α} {l : List α}
    (hx : x ∈ l) (hg : isErr (g x) = true) : isErr (mapME g l) = true := by
  induction l with
  | nil => cases hx
  | cons y ys ih =>
    show isErr (g y >>= fun b => mapME g ys >>= fun ys2 => Except.ok (b :: ys2)) = true
    rcases List.mem_cons.mp hx with h | h
    · subst h
      exact isErr_bind _ hg
    · cases hgy : g y with
      | error e => rfl
      | ok b =>
        show isErr (mapME g ys >>= fun ys2 => Except.ok (b :: ys2)) = true
        exact isErr_bind _ (ih h)

/-- Writing one position leaves every other position unchanged. -/
theorem getF_setF_ne (models : List Model) (r r' : FieldRef) (f : Field) (h : r' ≠ r) :
    getF (setF models r f) r' = getF models r' := by
  unfold setF
  cases hm : models[r.1]? with
  | none => rfl
  | some m =>
    unfold getF
    by_cases hi : r'.1 = r.1
    · have hj : r'.2 ≠ r.2 := fun hj => h (Prod.ext hi hj)
      rw [hi, List.getElem?_set_self', hm]
      show (m.fields.set r.2 f)[r'.2]? = m.fields[r'.2]?
      exact List.getElem?_set_ne (Ne.symm hj)
    · rw [List.getElem?_set_ne fun hh => hi hh.symm]

/-- An enumerated position really carries its field. -/
theorem fieldRefsOf_getF (models : List Model) (q : FieldRef) (f : Field)
    (h : (q, f) ∈ fieldRefsOf models) : getF models q = some f := by
  unfold fieldRefsOf at h
  obtain ⟨im, him, hmem⟩ := List.mem_flatMap.mp h
  obtain ⟨jf, hjf, heq⟩ := List.mem_map.mp hmem
  obtain ⟨i, m⟩ := im
  obtain ⟨j, g⟩ := jf
  injection heq with hq hf
  subst hq
  subst hf
  have h1 : models[i]? = some m := List.mk_mem_enum_iff_getElem?.mp him
  have h2 : m.fields[j]? = some g := List.mk_mem_enum_iff_getElem?.mp hjf
  unfold getF
  rw [h1]
  exact h2

/-- Every selected many-to-many position holds a field with a truthy
relation name. -/
theorem mem_filterM2M (models : List Model) (p : FieldRef)
    (hp : p ∈ filterManyToManyRelationFields models) :
    ∃ f, getF models p = some f ∧ truthyStr f.relationName = true := by
  unfold filterManyToManyRelationFields at hp
  obtain ⟨⟨q, f⟩, hmem, hq⟩ := List.mem_map.mp hp
  have hmem2 := List.mem_of_mem_filter hmem
  have htr := List.of_mem_filter hmem2
  have hmem3 := List.mem_of_mem_filter hmem2
  subst hq
  exact ⟨f, fieldRefsOf_getF models q f hmem3, htr⟩

/-- A position holding a relation-name-free field is never selected for
many-to-many synthesis. -/
theorem notin_filterM2M (models : List Model) (p : FieldRef) (f : Field)
    (hget : getF models p = some f) (hrn : f.relationName = none) :
    p ∉ filterManyToManyRelationFields models := by
  intro hp
  obtain ⟨g, hget2, htr⟩ := mem_filterM2M models p hp
  rw [hget] at hget2
  injection hget2 with he
  subst he
  rw [hrn] at htr
  cases htr

/-- A successful bind factors through a successful left side. -/
theorem except_bind_ok_inv {x : Except ε α} {k : α → Except ε β} {v : β}
    (h : (x >>= k) = .ok v) : ∃ a, x = .ok a ∧ k a = .ok v := by
  cases x with
  | error e => exact absurd h (by simp [Bind.bind, Except.bind])
  | ok a => exact ⟨a, rfl, h⟩

/-- `generateJoinFields` mutates only the two paired positions. -/
theorem generateJoinFields_getF_ne (models : List Model) (r1 : FieldRef) (mf : Field)
    (r2 : FieldRef) (ms : Field) (models2 : List Model) (jf : List Field)
    (h : generateJoinFields models r1 mf r2 ms = .ok (models2, jf))
    (q : FieldRef) (hq1 : q ≠ r1) (hq2 : q ≠ r2) :
    getF models2 q = getF models q := by
  cases hsw : localeLt ms.type mf.type with
  | true =>
    simp only [generateJoinFields, hsw, if_true, bind_pure_comp] at h
    obtain ⟨a1, h1, h⟩ := except_bind_ok_inv h
    obtain ⟨a2, h2, h⟩ := except_bind_ok_inv h
    obtain ⟨a3, h3, h⟩ := except_bind_ok_inv h
    obtain ⟨a4, h4, h⟩ := except_bind_ok_inv h
    simp only [Except.ok.injEq, Prod.mk.injEq] at h
    rw [← h.1]
    rw [getF_setF_ne _ _ _ _ hq1, getF_setF_ne _ _ _ _ hq2]
  | false =>
    simp only [generateJoinFields, hsw, Bool.false_eq_true, if_false, bind_pure_comp] at h
    obtain ⟨a1, h1, h⟩ := except_bind_ok_inv h
    obtain ⟨a2, h2, h⟩ := except_bind_ok_inv h
    obtain ⟨a3, h3, h⟩ := except_bind_ok_inv h
    obtain ⟨a4, h4, h⟩ := except_bind_ok_inv h
    simp only [Except.ok.injEq, Prod.mk.injEq] at h
    rw [← h.1]
    rw [getF_setF_ne _ _ _ _ hq2, getF_setF_ne _ _ _ _ hq1]

/-- The synthesis loop only ever writes positions drawn from its remaining
reference list, so any position outside that list keeps its field. -/
theorem generateModelsGo_preserves (fuel : Nat) (refs : List FieldRef)
    (models acc : List Model) (q : FieldRef) (hq : ∀ r ∈ refs, r ≠ q)
    (models' acc' : List Model)
    (h : generateModelsGo fuel refs models acc = .ok (models', acc')) :
    getF models' q = getF models q := by
  induction fuel generalizing refs models acc with
  | zero =>
    simp only [generateModelsGo, Except.ok.injEq, Prod.mk.injEq] at h
    rw [h.1]
  | succ fuel ih =>
    cases refs with
    | nil =>
      simp only [generateModelsGo, Except.ok.injEq, Prod.mk.injEq] at h
      rw [h.1]
    | cons rFirst rest =>
      simp only [generateModelsGo] at h
      cases hg1 : getF models rFirst with
      | none =>
        simp only [hg1, Except.ok.injEq, Prod.mk.injEq] at h
        rw [h.1]
      | some manyFirst =>
        simp only [hg1] at h
        cases hfind : rest.find? fun r =>
            ((getF models r).bind fun f => f.relationName) = manyFirst.relationName with
        | none =>
          simp only [hfind, Except.ok.injEq, Prod.mk.injEq] at h
          rw [h.1]
        | some rSecond =>
          simp only [hfind] at h
          cases hg2 : getF models rSecond with
          | none =>
            simp only [hg2, Except.ok.injEq, Prod.mk.injEq] at h
            rw [h.1]
          | some manySecond =>
            simp only [hg2] at h
            cases hjf : generateJoinFields models rFirst manyFirst rSecond manySecond with
            | error e =>
              rw [hjf] at h
              cases h
            | ok p =>
              obtain ⟨models2, joinFields⟩ := p
              simp only [hjf] at h
              have hq1 : rFirst ≠ q := hq rFirst (List.mem_cons_self rFirst rest)
              have hq2 : rSecond ≠ q :=
                hq rSecond (List.mem_cons_of_mem _ (List.mem_of_find?_eq_some hfind))
              have hpres : getF models2 q = getF models q :=
                generateJoinFields_getF_ne models rFirst manyFirst rSecond manySecond
                  models2 joinFields hjf q (Ne.symm hq1) (Ne.symm hq2)
              have hrec := ih _ models2 _
                (fun r hr => hq r (List.mem_cons_of_mem _ (List.mem_of_mem_filter hr))) h
              rw [hrec, hpres]

/-- Successful many-to-many synthesis keeps every field that carries no
relation name. -/
theorem extract_preserves (models : List Model) (models2 joins : List Model)
    (q : FieldRef) (f : Field)
    (h : extractManyToManyModels models = .ok (models2, joins))
    (hget : getF models q = some f) (hrn : f.relationName = none) :
    getF models2 q = some f := by
  unfold extractManyToManyModels at h
  cases hE : (filterManyToManyRelationFields models).isEmpty with
  | true =>
    simp only [hE, if_true, Except.ok.injEq, Prod.mk.injEq] at h
    rw [← h.1]
    exact hget
  | false =>
    simp only [hE, Bool.false_eq_true, if_false] at h
    have hq : ∀ r ∈ filterManyToManyRelationFields models, r ≠ q := by
      intro r hr he
      subst he
      exact notin_filterM2M models r f hget hrn hr
    have := generateModelsGo_preserves _ _ models [] q hq models2 joins h
    rw [this]
    exact hget

/-- A scalar `Bytes` field is fatal for the MySQL column builder. -/
theorem isErr_mysql_col_bytes (f : Field) (enums : List DatamodelEnum)
    (hk : f.kind = FieldKind.scalar) (ht : f.type = "Bytes") :
    isErr (mysql_prismaToDrizzleColumn f enums) = true := by
  unfold mysql_prismaToDrizzleColumn
  rw [ht, hk, if_neg (fun hx => FieldKind.noConfusion hx)]
  exact isErr_bind _ rfl

/-- The MySQL column loop fails when any of its fields fails. -/
theorem isErr_mysql_columnEntries (enums : List DatamodelEnum) (fs : List Field)
    (f : Field) (hf : f ∈ fs)
    (hcol : isErr (mysql_prismaToDrizzleColumn f enums) = true) :
    isErr (mysql_columnEntries enums fs) = true := by
  induction fs with
  | nil => cases hf
  | cons y ys ih =>
    rcases List.mem_cons.mp hf with h | h
    · subst h
      simp only [mysql_columnEntries]
      exact isErr_bind _ hcol
    · simp only [mysql_columnEntries]
      cases hgy : mysql_prismaToDrizzleColumn y enums with
      | error e => rfl
      | ok p =>
        rw [except_bind_ok]
        obtain ⟨colOpt, ma, da⟩ := p
        exact isErr_bind _ (ih h)

/-- The MySQL per-model output fails on a model holding a scalar `Bytes`
field. -/
theorem isErr_mysql_modelOutput (enums : List DatamodelEnum) (m : Model)
    (f : Field) (hf : f ∈ m.fields)
    (hk : f.kind = FieldKind.scalar) (ht : f.type = "Bytes") :
    isErr (mysql_modelOutput enums m) = true := by
  unfold mysql_modelOutput
  exact isErr_bind _ (isErr_mysql_columnEntries enums m.fields f hf
    (isErr_mysql_col_bytes f enums hk ht))

/-- The whole MySQL run fails whenever some model holds a scalar `Bytes`
field carrying no relation name. -/
theorem isErr_generateMySqlSchema_bytes (st : GenState) (dm : Datamodel)
    (q : FieldRef) (f : Field) (hget : getF dm.models q = some f)
    (hk : f.kind = FieldKind.scalar) (ht : f.type = "Bytes")
    (hrn : f.relationName = none) :
    isErr (generateMySqlSchema st dm) = true := by
  unfold generateMySqlSchema
  apply isErr_bind
  unfold mysql_core
  cases hx : extractManyToManyModels dm.models with
  | error e => rfl
  | ok p =>
    obtain ⟨models2, joins⟩ := p
    rw [except_bind_ok]
    have hp : getF models2 q = some f := extract_preserves dm.models models2 joins q f hx hget hrn
    unfold getF at hp
    cases hm2 : models2[q.1]? with
    | none => rw [hm2] at hp; cases hp
    | some m2 =>
      rw [hm2] at hp
      have hmem : m2 ∈ models2 ++ joins := List.mem_append_left _ (List.getElem?_mem hm2)
      have hfin : f ∈ m2.fields := List.getElem?_mem hp
      exact isErr_bind _ (isErr_mapME hmem (isErr_mysql_modelOutput dm.enums m2 f hfin hk ht))

/-- A scalar `Bytes` field is fatal for the Postgres column builder, whatever
`@db.*` attribute the schema text carries. -/
theorem isErr_pg_col_bytes (f : Field) (nativeType : Option String)
    (hk : f.kind = FieldKind.scalar) (ht : f.type = "Bytes") :
    isErr (pg_prismaToDrizzleColumn f nativeType) = true := by
  unfold pg_prismaToDrizzleColumn
  rw [ht, hk, if_neg (fun hx => FieldKind.noConfusion hx)]
  exact isErr_bind _ rfl

/-- The Postgres column loop fails when any of its fields fails for every
native-type attribute. -/
theorem isErr_pg_columnEntries (modelAst : AstModel) (fs : List Field)
    (f : Field) (hf : f ∈ fs)
    (hcol : ∀ nt, isErr (pg_prismaToDrizzleColumn f nt) = true) :
    isErr (pg_columnEntries modelAst fs) = true := by
  induction fs with
  | nil => cases hf
  | cons y ys ih =>
    simp only [pg_columnEntries]
    cases hfind : modelAst.fields.find? fun af => af.name = y.name with
    | none => rfl
    | some fieldAst =>
      show isErr (pg_prismaToDrizzleColumn y (fieldAst.dbAttr.map jsToLower) >>= fun p =>
        pg_columnEntries modelAst ys >>= fun r =>
        Except.ok ((y.name, p.1) :: r.1, p.2.1 ++ r.2.1, p.2.2 ++ r.2.2)) = true
      rcases List.mem_cons.mp hf with h | h
      · subst h
        exact isErr_bind _ (hcol _)
      · cases hgy : pg_prismaToDrizzleColumn y (fieldAst.dbAttr.map jsToLower) with
        | error e => rfl
        | ok p =>
          rw [except_bind_ok]
          exact isErr_bind _ (ih h)

/-- The Postgres per-model output fails on a model holding a scalar `Bytes`
field (also when the model is missing from the schema AST). -/
theorem isErr_pg_modelOutput (ast : List AstModel) (m : Model)
    (f : Field) (hf : f ∈ m.fields)
    (hk : f.kind = FieldKind.scalar) (ht : f.type = "Bytes") :
    isErr (pg_modelOutput ast m) = true := by
  unfold pg_modelOutput
  cases hfind : ast.find? fun a => a.name = m.name with
  | none => rfl
  | some modelAst =>
    exact isErr_bind _ (isErr_pg_columnEntries modelAst m.fields f hf
      (fun nt => isErr_pg_col_bytes f nt hk ht))

/-- The whole Postgres run fails whenever some model holds a scalar `Bytes`
field carrying no relation name. -/
theorem isErr_generatePgSchema_bytes (st : GenState) (dm : Datamodel) (ast : List AstModel)
    (q : FieldRef) (f : Field) (hget : getF dm.models q = some f)
    (hk : f.kind = FieldKind.scalar) (ht : f.type = "Bytes")
    (hrn : f.relationName = none) :
    isErr (generatePgSchema st dm ast) = true := by
  unfold generatePgSchema
  apply isErr_bind
  unfold pg_core
  cases hx : extractManyToManyModels dm.models with
  | error e => rfl
  | ok p =>
    obtain ⟨models2, joins⟩ := p
    rw [except_bind_ok]
    have hp : getF models2 q = some f := extract_preserves dm.models models2 joins q f hx hget hrn
    unfold getF at hp
    cases hm2 : models2[q.1]? with
    | none => rw [hm2] at hp; cases hp
    | some m2 =>
      rw [hm2] at hp
      have hmem : m2 ∈ models2 ++ joins := List.mem_append_left _ (List.getElem?_mem hm2)
      have hfin : f ∈ m2.fields := List.getElem?_mem hp
      exact isErr_bind _ (isErr_mapME hmem (isErr_pg_modelOutput ast m2 f hfin hk ht))

/-! ## Claims -/

/-- **C9** — counterexample. The scenario model's DMMF marks both fields
required, so the Postgres generator interposes `.notNull()` between the
column constructor and `.primaryKey()`/`.unique()`: the output contains
neither `id: serial('id').primaryKey()` nor `email: text('email').unique()`
as the claim states. -/
theorem claim_C9_cex :
    ((generatePgSchema pgInitState { models := [scenarioUser], enums := [] }
        scenarioUserAst).toOption.map
      fun p => (strContains p.1 "id: serial('id').primaryKey()",
        strContains p.1 "email: text('email').unique()"))
      = some (false, false) := by decide

/-- **C9** — amended. On the Postgres dialect the scenario model generates
exactly one import line listing `pgTable`, `serial` and `text`, and the
columns `id: serial('id').notNull().primaryKey()` and
`email: text('email').notNull().unique()`. -/
theorem claim_C9_amended :
    (generatePgSchema pgInitState { models := [scenarioUser], enums := [] }
        scenarioUserAst).toOption.map Prod.fst
      = some ("import \x7b pgTable, serial, text \x7d from 'drizzle-orm/pg-core'\n\nexport const User = pgTable('User', \x7b\n\tid: serial('id').notNull().primaryKey(),\n\temail: text('email').notNull().unique()\n\x7d);")
    ∧ ((generatePgSchema pgInitState { models := [scenarioUser], enums := [] }
        scenarioUserAst).toOption.map
      fun p => (strContains p.1 "id: serial('id').notNull().primaryKey()",
        strContains p.1 "email: text('email').notNull().unique()",
        strContains p.1 "import \x7b pgTable, serial, text \x7d from 'drizzle-orm/pg-core'"))
      = some (true, true, true) := by
  constructor <;> decide

/-- **C7** — counterexample. A unique index with an explicitly supplied name
ending in `_key` is emitted verbatim: the MySQL generator keys the
declaration by `Email_key`, and no `_unique_idx` suffix appears anywhere in
the output, against the claim's first half. -/
theorem claim_C7_cex :
    ((generateMySqlSchema mysqlInitState { models := [namedIdxModel], enums := [] }).toOption.map
      fun p => (strContains p.1 "_unique_idx",
        strContains p.1 "'Email_key': uniqueIndex('Email_key')"))
      = some (false, true) := by decide

/-- **C7** — amended. The rewrite is keyed on the absence of an explicit
name, not on the `_key` suffix: an unnamed index gets the synthesized
`{table}_{fields}_key` name with its suffix rewritten to `_unique_idx` as the
declaration key, while any explicitly supplied name — `_key`-suffixed or not
— is preserved verbatim both as the key and as the `uniqueIndex` argument. -/
theorem claim_C7_amended :
    (∀ (tableName : String) (fields : List String),
      uniqueEntry id tableName { name := none, fields := fields } =
        "\t'" ++ (tableName ++ "_" ++ String.intercalate "_" fields) ++ "_unique_idx" ++
        "': uniqueIndex('" ++ (tableName ++ "_" ++ String.intercalate "_" fields ++ "_key") ++
        "')\n\t\t.on(" ++ String.intercalate ", " (fields.map fun f => tableName ++ "." ++ f) ++ ")")
    ∧ (∀ (tableName n : String) (fields : List String), n ≠ "" →
      uniqueEntry id tableName { name := some n, fields := fields } =
        "\t'" ++ n ++ "': uniqueIndex('" ++ n ++ "')\n\t\t.on(" ++
        String.intercalate ", " (fields.map fun f => tableName ++ "." ++ f) ++ ")") := by
  constructor
  · intro tableName fields
    have hfalse : truthyStr (none : Option String) = false := rfl
    simp only [uniqueEntry, hfalse, Bool.false_eq_true, if_false, id, Option.getD_none]
    rw [strTake_append_key]
    simp [String.append_assoc]
  · intro tableName n fields hn
    have htrue : truthyStr (some n) = true := by simp [truthyStr, hn]
    simp only [uniqueEntry, htrue, if_true, id, Option.getD_some]

/-- **C8** — counterexample. The MySQL generator embeds the `dbgenerated`
argument inside the raw-SQL backtick escape without passing it through the
Escaper: for the argument ``a`b`` the emitted default is ``.default(sql`a`b`)``,
while the Escaper would have produced ``a\`b``. -/
theorem claim_C8_cex :
    mysql_addColumnModifiers
        { name := "x", type := "String",
          default := some (.fn "dbgenerated" [{ str := "a`b", json := "\"a`b\"" }]) } ""
      = (".default(sql`a`b`)", ["sql"])
    ∧ s "a`b" btk = "a\\`b" ∧ ("a`b" : String) ≠ "a\\`b" := by
  refine ⟨rfl, by decide, by decide⟩

/-- **C8** — amended. Only the Postgres and SQLite generators pass
`dbgenerated` text and fallback function-call text through the Escaper with
the backtick container; the MySQL generator embeds both raw, and enum value
literals are embedded unescaped inside single-quoted literals on both
dialects that emit them: the MySQL per-column `mysqlEnum` list and the
Postgres enum declaration (which escapes the enum's own name but not its
values). -/
theorem claim_C8_amended :
    (∀ (c nm ty : String) (arg : JsValue),
      pg_addColumnModifiers { name := nm, type := ty, default := some (.fn "dbgenerated" [arg]) } c
        = (c ++ ".default(sql`" ++ s arg.str btk ++ "`)", ["sql"]))
    ∧ (∀ (c nm ty : String) (arg : JsValue),
      sqlite_addColumnModifiers
          { name := nm, type := ty, default := some (.fn "dbgenerated" [arg]) } c
        = (c ++ ".default(sql`" ++ s arg.str btk ++ "`)", ["sql"]))
    ∧ (∀ (c nm ty : String) (arg : JsValue),
      mysql_addColumnModifiers
          { name := nm, type := ty, default := some (.fn "dbgenerated" [arg]) } c
        = (c ++ ".default(sql`" ++ arg.str ++ "`)", ["sql"]))
    ∧ (∀ (c nm ty name : String) (arg : JsValue),
      name ≠ "now" → name ≠ "autoincrement" → name ≠ "dbgenerated" →
      isUuidCall name = false →
      pg_addColumnModifiers
          { name := nm, type := ty, default := some (.fn name [arg]) } c
        = (c ++ ".default(sql`" ++ s (name ++ ("(" ++ arg.str ++ ")")) btk ++ "`)", ["sql"]))
    ∧ (∀ (c nm ty name : String) (arg : JsValue),
      name ≠ "now" → name ≠ "autoincrement" → name ≠ "dbgenerated" →
      sqlite_addColumnModifiers
          { name := nm, type := ty, default := some (.fn name [arg]) } c
        = (c ++ ".default(sql`" ++ s (name ++ "(" ++ arg.str ++ ")") btk ++ "`)", ["sql"]))
    ∧ (∀ (c nm ty name : String) (arg : JsValue),
      name ≠ "now" → name ≠ "autoincrement" → name ≠ "dbgenerated" →
      mysql_addColumnModifiers
          { name := nm, type := ty, default := some (.fn name [arg]) } c
        = (c ++ ".default(sql`" ++ (name ++ "(" ++ arg.str ++ ")") ++ "`)", ["sql"]))
    ∧ (∀ (ty c n vn : String),
      mysql_prismaToDrizzleType ty c (some { name := n, values := [{ name := vn }] })
        = .ok (some ("mysqlEnum('" ++ c ++ "', [" ++ ("'" ++ vn ++ "'") ++ "])"),
            ["mysqlEnum"]))
    ∧ (∀ (n vn : String),
      pg_enumDecl { name := n, values := [{ name := vn }] }
        = "export const " ++ n ++ " = pgEnum('" ++ s n sqt ++ "', [" ++
          ("'" ++ vn ++ "'") ++ "])") := by
  refine ⟨fun _ _ _ _ => rfl, fun _ _ _ _ => rfl, fun _ _ _ _ => rfl, ?_, ?_, ?_,
    fun _ _ _ _ => rfl, fun _ _ => rfl⟩
  · intro c nm ty name arg h1 h2 h3 h4
    simp only [pg_addColumnModifiers, if_neg h1, if_neg h2, if_neg h3, h4,
      Bool.false_eq_true, if_false]
    rfl
  · intro c nm ty name arg h1 h2 h3
    simp only [sqlite_addColumnModifiers, if_neg h1, if_neg h2, if_neg h3]
    rfl
  · intro c nm ty name arg h1 h2 h3
    simp only [mysql_addColumnModifiers, if_neg h1, if_neg h2, if_neg h3]
    rfl

/-- **C4** — counterexample. A single-foreign-key-column relation with no
explicit delete action on the MySQL dialect is inlined as a bare
`.references(...)` on the column: the generated output contains no
`onDelete('cascade')` at all. -/
theorem claim_C4_cex :
    ((generateMySqlSchema mysqlInitState
        { models := [profileModel, profileUserModel], enums := [] }).toOption.map
      fun p => (strContains p.1 ".onDelete('cascade')",
        strContains p.1 ".onUpdate('cascade')",
        strContains p.1 ".references(() => User.id)"))
      = some (false, false, true) := by decide

/-- **C4** — amended. An owning relation field with no explicit delete action
emits `onDelete('cascade')` and `onUpdate('cascade')` when it becomes a
separate `foreignKey` declaration — always on Postgres, and on MySQL and
SQLite (which share the shape, SQLite escaping the key name) only when the
relation does not have exactly one foreign-key and one referenced column; a
single-column relation on the inlining dialects (MySQL and SQLite) instead
appends a bare `.references(...)` to the column, with no action calls at
all. -/
theorem claim_C4_amended :
    (∀ (t : Model) (f : Field) (ff tf : List String),
      f.relationFromFields = some ff → f.relationToFields = some tf → ff ≠ [] →
      f.relationOnDelete = none → ¬(ff.length = 1 ∧ tf.length = 1) →
      mysql_relationEntry t f = .ok (.decl (fkBaseText t.name (fkNameOf t f) f.type ff tf ++
        "\n\t\t.onDelete('cascade')\n\t\t.onUpdate('cascade')")))
    ∧ (∀ (t : Model) (f : Field) (ff tf : List String),
      f.relationFromFields = some ff → f.relationToFields = some tf →
      ff.length = 1 → tf.length = 1 →
      mysql_relationEntry t f = .ok (.inline (ff.headD "")
        (".references(() => " ++ f.type ++ "." ++ tf.headD "" ++ ")")))
    ∧ (∀ (t : Model) (f : Field) (ff tf : List String),
      f.relationFromFields = some ff → f.relationToFields = some tf → ff ≠ [] →
      f.relationOnDelete = none →
      pg_relationEntry t f = .ok (.decl (fkBaseText t.name (s (fkNameOf t f) sqt) f.type ff tf ++
        "\n\t\t.onDelete('cascade')\n\t\t.onUpdate('cascade')")))
    ∧ (∀ (t : Model) (f : Field) (ff tf : List String),
      f.relationFromFields = some ff → f.relationToFields = some tf → ff ≠ [] →
      f.relationOnDelete = none → ¬(ff.length = 1 ∧ tf.length = 1) →
      sqlite_relationEntry t f = .ok (.decl
        (fkBaseText t.name (s (fkNameOf t f) sqt) f.type ff tf ++
        "\n\t\t.onDelete('cascade')\n\t\t.onUpdate('cascade')")))
    ∧ (∀ (t : Model) (f : Field) (ff tf : List String),
      f.relationFromFields = some ff → f.relationToFields = some tf →
      ff.length = 1 → tf.length = 1 →
      sqlite_relationEntry t f = .ok (.inline (ff.headD "")
        (".references(() => " ++ f.type ++ "." ++ tf.headD "" ++ ")"))) := by
  refine ⟨?_, ?_, ?_, ?_, ?_⟩
  · intro t f ff tf hff htf hne hod hlen
    have hie : ff.isEmpty = false := by
      cases ff with
      | nil => exact absurd rfl hne
      | cons a as => rfl
    have hc : (decide (ff.length = 1) && lenEqOne (some tf)) = false := by
      by_contra hbc
      rw [Bool.not_eq_false, Bool.and_eq_true, decide_eq_true_iff] at hbc
      exact hlen ⟨hbc.1, by simpa [lenEqOne, decide_eq_true_iff] using hbc.2⟩
    simp only [mysql_relationEntry, hff, htf, hod, truthyLen, hie, Bool.not_false,
      Bool.not_true, Option.getD_some, hc, Bool.false_eq_true, if_false, reduceIte]
    rfl
  · intro t f ff tf hff htf h1 h2
    have hie : ff.isEmpty = false := by
      cases ff with
      | nil => simp at h1
      | cons a as => rfl
    have hc : (decide (ff.length = 1) && lenEqOne (some tf)) = true := by
      simp [lenEqOne, h1, h2]
    simp only [mysql_relationEntry, hff, htf, truthyLen, hie, Bool.not_false, Bool.not_true,
      Option.getD_some, hc, Bool.false_eq_true, if_false, reduceIte]
  · intro t f ff tf hff htf hne hod
    have hie : ff.isEmpty = false := by
      cases ff with
      | nil => exact absurd rfl hne
      | cons a as => rfl
    simp only [pg_relationEntry, hff, htf, hod, truthyLen, hie, Bool.not_false, Bool.not_true,
      Option.getD_some, reduceIte]
    rfl
  · intro t f ff tf hff htf hne hod hlen
    have hie : ff.isEmpty = false := by
      cases ff with
      | nil => exact absurd rfl hne
      | cons a as => rfl
    have hc : (decide (ff.length = 1) && lenEqOne (some tf)) = false := by
      by_contra hbc
      rw [Bool.not_eq_false, Bool.and_eq_true, decide_eq_true_iff] at hbc
      exact hlen ⟨hbc.1, by simpa [lenEqOne, decide_eq_true_iff] using hbc.2⟩
    simp only [sqlite_relationEntry, hff, htf, hod, truthyLen, hie, Bool.not_false,
      Bool.not_true, Option.getD_some, hc, Bool.false_eq_true, if_false, reduceIte]
    rfl
  · intro t f ff tf hff htf h1 h2
    have hie : ff.isEmpty = false := by
      cases ff with
      | nil => simp at h1
      | cons a as => rfl
    have hc : (decide (ff.length = 1) && lenEqOne (some tf)) = true := by
      simp [lenEqOne, h1, h2]
    simp only [sqlite_relationEntry, hff, htf, truthyLen, hie, Bool.not_false, Bool.not_true,
      Option.getD_some, hc, Bool.false_eq_true, if_false, reduceIte]

/-- **C10**. A relation field emitted as a separate foreign-key declaration
whose delete action is `NoAction` gets no `.onDelete(...)` call at all — the
declaration ends in the bare `.onUpdate('cascade')` — on all three dialects;
checked concretely on a full MySQL run over a two-column `NoAction`
relation. -/
theorem claim_C10 :
    (∀ (t : Model) (f : Field) (ff tf : List String),
      f.relationFromFields = some ff → f.relationToFields = some tf → ff ≠ [] →
      f.relationOnDelete = some "NoAction" → ¬(ff.length = 1 ∧ tf.length = 1) →
      mysql_relationEntry t f = .ok (.decl (fkBaseText t.name (fkNameOf t f) f.type ff tf ++
        "\n\t\t.onUpdate('cascade')")))
    ∧ (∀ (t : Model) (f : Field) (ff tf : List String),
      f.relationFromFields = some ff → f.relationToFields = some tf → ff ≠ [] →
      f.relationOnDelete = some "NoAction" →
      pg_relationEntry t f = .ok (.decl (fkBaseText t.name (s (fkNameOf t f) sqt) f.type ff tf ++
        "\n\t\t.onUpdate('cascade')")))
    ∧ (∀ (t : Model) (f : Field) (ff tf : List String),
      f.relationFromFields = some ff → f.relationToFields = some tf → ff ≠ [] →
      f.relationOnDelete = some "NoAction" → ¬(ff.length = 1 ∧ tf.length = 1) →
      sqlite_relationEntry t f = .ok (.decl (fkBaseText t.name (s (fkNameOf t f) sqt) f.type ff tf ++
        "\n\t\t.onUpdate('cascade')")))
    ∧ ((generateMySqlSchema mysqlInitState
          { models := [orderModel, customerModel], enums := [] }).toOption.map
        fun p => (strContains p.1 ".onDelete", strContains p.1 ".onUpdate('cascade')"))
        = some (false, true) := by
  refine ⟨?_, ?_, ?_, by decide⟩
  · intro t f ff tf hff htf hne hod hlen
    have hie : ff.isEmpty = false := by
      cases ff with
      | nil => exact absurd rfl hne
      | cons a as => rfl
    have hc : (decide (ff.length = 1) && lenEqOne (some tf)) = false := by
      by_contra hbc
      rw [Bool.not_eq_false, Bool.and_eq_true, decide_eq_true_iff] at hbc
      exact hlen ⟨hbc.1, by simpa [lenEqOne, decide_eq_true_iff] using hbc.2⟩
    simp only [mysql_relationEntry, hff, htf, hod, truthyLen, hie, Bool.not_false,
      Bool.not_true, Option.getD_some, hc, Bool.false_eq_true, if_false, reduceIte]
    rfl
  · intro t f ff tf hff htf hne hod
    have hie : ff.isEmpty = false := by
      cases ff with
      | nil => exact absurd rfl hne
      | cons a as => rfl
    simp only [pg_relationEntry, hff, htf, hod, truthyLen, hie, Bool.not_false, Bool.not_true,
      Option.getD_some, reduceIte]
    rfl
  · intro t f ff tf hff htf hne hod hlen
    have hie : ff.isEmpty = false := by
      cases ff with
      | nil => exact absurd rfl hne
      | cons a as => rfl
    have hc : (decide (ff.length = 1) && lenEqOne (some tf)) = false := by
      by_contra hbc
      rw [Bool.not_eq_false, Bool.and_eq_true, decide_eq_true_iff] at hbc
      exact hlen ⟨hbc.1, by simpa [lenEqOne, decide_eq_true_iff] using hbc.2⟩
    simp only [sqlite_relationEntry, hff, htf, hod, truthyLen, hie, Bool.not_false,
      Bool.not_true, Option.getD_some, hc, Bool.false_eq_true, if_false, reduceIte]
    rfl

/-- **C1** — the code at the claim's failing input. For the reciprocal pair
declared in the order `[Zebra, Apple]`, the synthesizer names the join model
`ZebraToApple` (second field's referenced type, then first field's) while
rewriting the original relation fields to point at the sorted name
`AppleToZebra` — the sorted name the claim (and the rest of the synthesizer)
expects, so the generated declarations reference a table constant that is
never emitted. -/
theorem claim_C1_bug :
    ((extractManyToManyModels [zebraModel, appleModel]).toOption.map
      fun p => (p.2.map Model.name, (getF p.1 (0, 1)).map Field.type))
      = some (["ZebraToApple"], some "AppleToZebra")
    ∧ ("ZebraToApple" : String) ≠ "AppleToZebra" :=
  ⟨by decide, by decide⟩

/-- **C2** — counterexample. The imports-used set is module-scoped, not
allocated fresh: after one MySQL run over a model with an `Int` column, a
second run in the same process over the empty datamodel still emits the
`int` import that only the first run used, unlike a fresh-state run on the
same empty input. -/
theorem claim_C2_cex :
    ((do
        let r1 ← generateMySqlSchema mysqlInitState intOnlyDm
        generateMySqlSchema r1.2 emptyDm : Except String (String × GenState)).toOption.map
          Prod.fst)
      = some "import \x7b int, mysqlTable \x7d from 'drizzle-orm/mysql-core'"
    ∧ ((generateMySqlSchema mysqlInitState emptyDm).toOption.map Prod.fst)
      = some "import \x7b mysqlTable \x7d from 'drizzle-orm/mysql-core'" :=
  ⟨by decide, by decide⟩

/-- **C2** — amended. The import sets persist across invocations in one
process; nevertheless, on the same fixed input a second successive invocation
of any of the three dialect generators returns output byte-identical to the
first's (and the same final state), because re-inserting a run's import names
into the sets they were already folded into changes nothing. -/
theorem claim_C2_amended :
    (∀ (st : GenState) (dm : Datamodel) (o1 : String) (st1 : GenState),
      generateMySqlSchema st dm = .ok (o1, st1) →
      generateMySqlSchema st1 dm = .ok (o1, st1))
    ∧ (∀ (st : GenState) (dm : Datamodel) (ast : List AstModel) (o1 : String) (st1 : GenState),
      generatePgSchema st dm ast = .ok (o1, st1) →
      generatePgSchema st1 dm ast = .ok (o1, st1))
    ∧ (∀ (st : GenState) (dm : Datamodel) (o1 : String) (st1 : GenState),
      generateSQLiteSchema st dm = .ok (o1, st1) →
      generateSQLiteSchema st1 dm = .ok (o1, st1)) := by
  refine ⟨?_, ?_, ?_⟩
  · intro st dm o1 st1 h
    unfold generateMySqlSchema at h ⊢
    cases hc : mysql_core dm with
    | error e =>
      rw [hc] at h
      exact Except.noConfusion h
    | ok co =>
      rw [hc] at h
      replace h : Except.ok (emitText "drizzle-orm/mysql-core" (stepState st co) co,
          stepState st co) = Except.ok (o1, st1) := h
      injection h with h2
      injection h2 with ho hs
      show Except.ok (emitText "drizzle-orm/mysql-core" (stepState st1 co) co,
          stepState st1 co) = Except.ok (o1, st1)
      rw [← hs, stepState_idem, ho]
  · intro st dm ast o1 st1 h
    unfold generatePgSchema at h ⊢
    cases hc : pg_core dm ast with
    | error e =>
      rw [hc] at h
      exact Except.noConfusion h
    | ok co =>
      rw [hc] at h
      replace h : Except.ok (emitText "drizzle-orm/pg-core" (stepState st co) co,
          stepState st co) = Except.ok (o1, st1) := h
      injection h with h2
      injection h2 with ho hs
      show Except.ok (emitText "drizzle-orm/pg-core" (stepState st1 co) co,
          stepState st1 co) = Except.ok (o1, st1)
      rw [← hs, stepState_idem, ho]
  · intro st dm o1 st1 h
    unfold generateSQLiteSchema at h ⊢
    cases hc : sqlite_core dm with
    | error e =>
      rw [hc] at h
      exact Except.noConfusion h
    | ok co =>
      rw [hc] at h
      replace h : Except.ok (emitText "drizzle-orm/sqlite-core" (stepState st co) co,
          stepState st co) = Except.ok (o1, st1) := h
      injection h with h2
      injection h2 with ho hs
      show Except.ok (emitText "drizzle-orm/sqlite-core" (stepState st1 co) co,
          stepState st1 co) = Except.ok (o1, st1)
      rw [← hs, stepState_idem, ho]

/-- **C3** — counterexample. Two disjoint qualifying pairs (`Post`/`Tag` and
`X`/`Y`): after the first pair is synthesized, its fields' relation names
have already been rewritten when the group-removal filter compares against
them, so the filter removes nothing, the next step pops an already-consumed
field, finds no counterpart, and stops — only one join model is produced and
the qualifying `XToY` group is silently dropped. -/
theorem claim_C3_cex :
    ((extractManyToManyModels [postModel, tagModel, xModel, yModel]).toOption.map
      fun p => p.2.map Model.name)
      = some ["PostToTag"]
    ∧ (["PostToTag"] : List String).length ≠ 2 :=
  ⟨by decide, by decide⟩

/-- **C3** — amended. When the first remaining many-to-many field's relation
name has no counterpart among the rest, synthesis stops right there without
error and returns with the input models untouched and no join models — later
qualifying groups are not processed (and, per the counterexample, a
synthesized pair's rewritten relation names make the group filter miss the
remaining fields, so at most the first group yields a join model). -/
theorem claim_C3_amended (models : List Model) (r : FieldRef) (rest : List FieldRef)
    (hrefs : filterManyToManyRelationFields models = r :: rest)
    (hnone : rest.find? (fun q => ((getF models q).bind fun f => f.relationName) =
      ((getF models r).bind fun f => f.relationName)) = none) :
    extractManyToManyModels models = .ok (models, []) := by
  unfold extractManyToManyModels
  rw [hrefs]
  cases hg : getF models r with
  | none => simp [generateModels, generateModelsGo, hg]
  | some mf =>
    rw [hg] at hnone
    simp only [Option.some_bind] at hnone
    simp [generateModels, generateModelsGo, hg, hnone]

/-- **C3** — witness for the amended theorem at a concrete singleton group. -/
theorem claim_C3_witness :
    extractManyToManyModels [soloModel] = .ok ([soloModel], []) :=
  claim_C3_amended [soloModel] (0, 1) [] (by decide) (by decide)

/-- **C6**. A scalar field whose type matches no case of the MySQL type map is
mapped to no column and no import; removing such a field (with no relation
metadata) from any model leaves the generator's whole contribution for that
model unchanged — the column is silently omitted and nothing else differs —
and a concrete run over such a field completes successfully with the field's
column absent and the mapped column present. -/
theorem claim_C6 :
    (∀ (f : Field) (enums : List DatamodelEnum), f.kind = .scalar →
      f.type ∉ (["BigInt", "Boolean", "Bytes", "DateTime", "Decimal", "Float", "JSON",
        "Int", "String"] : List String) →
      mysql_prismaToDrizzleColumn f enums = .ok (none, [], []))
    ∧ (∀ (enums : List DatamodelEnum) (m : Model) (l₁ l₂ : List Field) (f : Field),
      f.kind = .scalar →
      f.type ∉ (["BigInt", "Boolean", "Bytes", "DateTime", "Decimal", "Float", "JSON",
        "Int", "String"] : List String) →
      f.relationToFields = none →
      mysql_modelOutput enums { m with fields := l₁ ++ f :: l₂ } =
        mysql_modelOutput enums { m with fields := l₁ ++ l₂ })
    ∧ ((generateMySqlSchema mysqlInitState unsupDm).toOption.map
        fun p => (strContains p.1 "u:", strContains p.1 "\ta: int('a')"))
        = some (false, true) :=
  ⟨fun f enums hk hne => mysql_column_unmapped f enums hk hne,
   fun enums m l₁ l₂ f hk hne hrel =>
     mysql_modelOutput_drop enums m l₁ l₂ f (mysql_column_unmapped f enums hk hne) hrel,
   by decide⟩

/-- **C5**. A `Bytes` field is an explicit fatal condition on MySQL and
Postgres and a silent success on SQLite: the MySQL and Postgres type mappers
answer the binary-unsupported error for `Bytes` whatever the column name,
default and native-type attribute; any datamodel holding a scalar `Bytes`
field (with no relation name) makes the whole MySQL and Postgres runs fail,
so no output text is produced; the SQLite type mapper instead maps `Bytes` to
a `blob(..., mode: 'buffer')` column, and a concrete SQLite run over a
`Bytes` field succeeds with that column in its output. -/
theorem claim_C5 :
    (∀ c : String, mysql_prismaToDrizzleType "Bytes" c none =
      .error "Drizzle ORM doesn't support binary data type for MySQL") ∧
    (∀ (c : String) (dv nt : Option String), pg_prismaToDrizzleType "Bytes" c dv nt =
      .error "Drizzle ORM doesn't support binary data type for PostgreSQL") ∧
    (∀ c : String, sqlite_prismaToDrizzleType "Bytes" c =
      (some ("blob('" ++ c ++ "', \x7b mode: 'buffer' \x7d)"), ["blob"])) ∧
    (∀ (st : GenState) (dm : Datamodel) (q : FieldRef) (f : Field),
      getF dm.models q = some f → f.kind = .scalar → f.type = "Bytes" →
      f.relationName = none → isErr (generateMySqlSchema st dm) = true) ∧
    (∀ (st : GenState) (dm : Datamodel) (ast : List AstModel) (q : FieldRef) (f : Field),
      getF dm.models q = some f → f.kind = .scalar → f.type = "Bytes" →
      f.relationName = none → isErr (generatePgSchema st dm ast) = true) ∧
    (isErr (generateSQLiteSchema sqliteInitState bytesDm) = false ∧
      strContains
        (((generateSQLiteSchema sqliteInitState bytesDm).toOption.map Prod.fst).getD "")
        "data: blob('data', \x7b mode: 'buffer' \x7d).notNull()" = true) := by
  refine ⟨fun c => rfl, fun c dv nt => rfl, fun c => rfl, ?_, ?_, by decide, by decide⟩
  · exact fun st dm q f hget hk ht hrn => isErr_generateMySqlSchema_bytes st dm q f hget hk ht hrn
  · exact fun st dm ast q f hget hk ht hrn =>
      isErr_generatePgSchema_bytes st dm ast q f hget hk ht hrn

end DPG
